import Mathlib

/-!
Shallow embedding of the Cypress TTSP touchscreen protocol core
(cyttsp_core.c of the nook_color repository), together with theorems
settling the specification claims about it.

The bus is modelled as a pair of oracles indexed by the number of bus
read (resp. write) calls performed so far; register bytes are `Nat`
values reduced mod 256 at the read boundary.  Device session state
(`struct cyttsp`) is the record `CySt`; input events reported to the
input core are logged in `CySt.events`, successful bus writes in
`CySt.wlog`, and each `msleep` bumps `CySt.delays`.
-/

namespace Cyttsp

/-! Constants from cyttsp_core.c and cyttsp_core.h. -/

def CY_NUM_BL_KEYS : Nat := 8
def CY_NUM_RETRY : Nat := 4
def CY_REG_BASE : Nat := 0x00
def CY_REG_ACT_DIST : Nat := 0x1E
def CY_REG_ACT_INTRVL : Nat := 0x1D
def CY_DELAY_DFLT : Nat := 20
def CY_DELAY_MAX : Nat := 500 / CY_DELAY_DFLT
def CY_ACT_DIST_DFLT : Nat := 0xF8
def CY_HNDSHK_BIT : Nat := 0x80
def CY_OPERATE_MODE : Nat := 0x00
def CY_SYSINFO_MODE : Nat := 0x10
def CY_SOFT_RESET_MODE : Nat := 0x01
def CY_DEEP_SLEEP_MODE : Nat := 0x02
def CY_LOW_POWER_MODE : Nat := 0x04
def CY_MAX_FINGER : Nat := 4
def CY_MAX_ID : Nat := 16
def CY_ACT_INTRVL_DFLT : Nat := 0x00
def CY_TCH_TMOUT_DFLT : Nat := 0xFF
def CY_LP_INTRVL_DFLT : Nat := 0x0A

/-! Errno values used by the driver (returned negated, Linux style). -/

def EAGAIN : Int := 11
def ENOMEM : Int := 12
def ENODEV : Int := 19
def EINVAL : Int := 22

/-! Helper macros from cyttsp_core.c. -/

def GET_NUM_TOUCHES (x : Nat) : Nat := x &&& 0x0F
def IS_LARGE_AREA (x : Nat) : Nat := (x &&& 0x10) >>> 4
def IS_BAD_PKT (x : Nat) : Nat := x &&& 0x20
def IS_VALID_APP (x : Nat) : Nat := x &&& 0x01
def IS_OPERATIONAL_ERR (x : Nat) : Nat := x &&& 0x3F
def GET_HSTMODE (reg : Nat) : Nat := (reg &&& 0x70) >>> 4
def GET_BOOTLOADERMODE (reg : Nat) : Nat := (reg &&& 0x10) >>> 4

/-- Power states of the session, `enum cyttsp_powerstate`. -/
inductive cyttsp_powerstate where
  | CY_IDLE_STATE
  | CY_ACTIVE_STATE
  | CY_LOW_PWR_STATE
  | CY_SLEEP_STATE
  | CY_BL_STATE
  | CY_INVALID_STATE
deriving DecidableEq, Repr

/-- Outcome of one raw bus read attempt: the device register bytes, or a
failure carrying an error code (the adapter returns `Int.negSucc e`,
always negative, as the C bus ops return negative errno on failure). -/
inductive BusReadRes where
  | ok (bytes : List Nat)
  | fail (e : Nat)
deriving DecidableEq, Repr

/-- Outcome of one raw bus write attempt. -/
inductive BusWriteRes where
  | ok
  | fail (e : Nat)
deriving DecidableEq, Repr

/-- Input events pushed to the input core: `cyttsp_report_slot`,
`cyttsp_report_slot_empty` and `input_sync`. -/
inductive InputEvent where
  | slotOccupied (slot x y z : Nat)
  | slotEmpty (slot : Nat)
  | sync
deriving DecidableEq, Repr

/-- Fields of `struct cyttsp_platform_data` used by the core. -/
structure CyPlatformData where
  use_hndshk : Bool
  use_sleep : Nat
  act_dist : Nat
  act_intrvl : Nat
  tch_tmout : Nat
  lp_intrvl : Nat
  bl_keys : Option (List Nat)

/-- Execution environment: platform data plus the oracles deciding the
outcome of the n-th bus read / write call, the result of
`request_threaded_irq`, and whether the bootloader-ready completion
arrives before the soft-reset timeout. -/
structure CyEnv where
  pd : CyPlatformData
  readRes : Nat → BusReadRes
  writeRes : Nat → BusWriteRes
  irqRetval : Int
  blReady : Bool

/-- Whether a raw read attempt succeeded. -/
def BusReadRes.attemptOk : BusReadRes → Bool
  | .ok _ => true
  | .fail _ => false

/-- The retval of a raw read attempt (0 on success, negative errno on
failure). -/
def BusReadRes.errval : BusReadRes → Int
  | .ok _ => 0
  | .fail e => Int.negSucc e

/-- Whether a raw write attempt succeeded. -/
def BusWriteRes.attemptOk : BusWriteRes → Bool
  | .ok => true
  | .fail _ => false

/-- The retval of a raw write attempt. -/
def BusWriteRes.errval : BusWriteRes → Int
  | .ok => 0
  | .fail e => Int.negSucc e

/-- Observable session state: power state, the persisted register
snapshots (`bl_data`, `sysinfo_data` fields the core actually reads),
bus call counters, `msleep` counter, emitted input events, and the log
of successful bus writes as (register, bytes) pairs. -/
structure CySt where
  power_state : cyttsp_powerstate
  bl_file : Nat
  bl_status : Nat
  tts_verh : Nat
  tts_verl : Nat
  reads : Nat
  writes : Nat
  delays : Nat
  events : List InputEvent
  wlog : List (Nat × List Nat)
deriving DecidableEq, Repr

def msleep (st : CySt) : CySt := { st with delays := st.delays + 1 }

/-- The externally observable session fields no pure protocol step may
change: power state and emitted input events. -/
def obsPreserved (st st2 : CySt) : Prop :=
  st2.power_state = st.power_state ∧ st2.events = st.events

/-- Byte at index i of a register snapshot (0 when out of range). -/
def byteAt (bs : List Nat) (i : Nat) : Nat := bs.getD i 0

/-- Big-endian 16-bit field at byte offset i (`be16_to_cpu`). -/
def be16At (bs : List Nat) (i : Nat) : Nat := byteAt bs i * 256 + byteAt bs (i + 1)

/-- Retry loop body of `ttsp_read_block_data`: up to `fuel` attempts; a
failed attempt is followed by `msleep(CY_DELAY_DFLT)`; register bytes
are truncated to `length` bytes and reduced mod 256. -/
def ttsp_read_try (env : CyEnv) (length : Nat) : Nat → CySt → Int × Option (List Nat) × CySt
  | 0, st => (-1, none, st)
  | fuel + 1, st =>
    match env.readRes st.reads with
    | .ok bytes =>
        (0, some ((bytes.take length).map (· % 256)), { st with reads := st.reads + 1 })
    | .fail e =>
        let st1 := msleep { st with reads := st.reads + 1 }
        if fuel = 0 then (Int.negSucc e, none, st1)
        else ttsp_read_try env length fuel st1

/-- `ttsp_read_block_data`: bounded-retry block read.  A zero length
(or, in C, a null buffer, which the model elides) fails immediately
with -EINVAL without touching the bus. -/
def ttsp_read_block_data (env : CyEnv) (st : CySt) (_command length : Nat) :
    Int × Option (List Nat) × CySt :=
  if length = 0 then (-EINVAL, none, st)
  else ttsp_read_try env length CY_NUM_RETRY st

/-- Retry loop body of `ttsp_write_block_data`. -/
def ttsp_write_try (env : CyEnv) (command : Nat) (data : List Nat) :
    Nat → CySt → Int × CySt
  | 0, st => (-1, st)
  | fuel + 1, st =>
    match env.writeRes st.writes with
    | .ok =>
        (0, { st with writes := st.writes + 1, wlog := st.wlog ++ [(command, data)] })
    | .fail e =>
        let st1 := msleep { st with writes := st.writes + 1 }
        if fuel = 0 then (Int.negSucc e, st1)
        else ttsp_write_try env command data fuel st1

/-- `ttsp_write_block_data`: bounded-retry block write; the length is
the length of `data`. -/
def ttsp_write_block_data (env : CyEnv) (st : CySt) (command : Nat) (data : List Nat) :
    Int × CySt :=
  if data.length = 0 then (-EINVAL, st)
  else ttsp_write_try env command data CY_NUM_RETRY st

/-- The constant `bl_command` array: file offset, command byte, exit
bootloader command, then the 8 default keys. -/
def bl_command : List Nat := [0x00, 0xFF, 0xA5, 0, 1, 2, 3, 4, 5, 6, 7]

/-- Destination indices of `bl_cmd` touched by the key `memcpy` in
`cyttsp_exit_bl_mode`: destination offset
`sizeof(bl_command) - CY_NUM_BL_KEYS`, copy length `sizeof(bl_command)`
exactly as in the source. -/
def bl_keys_copy_dst_indices : List Nat :=
  (List.range bl_command.length).map (fun i => (bl_command.length - CY_NUM_BL_KEYS) + i)

/-- Source indices of the `bl_keys` array read by the key `memcpy` in
`cyttsp_exit_bl_mode` (copy length `sizeof(bl_command)`). -/
def bl_keys_copy_src_indices : List Nat := List.range bl_command.length

/-- The exit-bootloader command bytes as assembled in `cyttsp_exit_bl_mode`:
`bl_command` with, when platform keys are supplied, the trailing
`CY_NUM_BL_KEYS` in-buffer bytes replaced by key bytes.  (The source
`memcpy` uses length `sizeof(bl_command)`; only its in-bounds effect on
the 11-byte buffer is reflected here, the overrun itself is captured by
`bl_keys_copy_dst_indices`.) -/
def bl_cmd_bytes (keys : Option (List Nat)) : List Nat :=
  match keys with
  | none => bl_command
  | some ks =>
      bl_command.take (bl_command.length - CY_NUM_BL_KEYS) ++
        (List.range CY_NUM_BL_KEYS).map (fun i => ks.getD i 0 % 256)

/-- `cyttsp_load_bl_regs`: zero `bl_data`, preset `bl_status` to 0x10,
then read the 16-byte bootloader register block; on a successful read
the snapshot fields are taken from the delivered bytes (`bl_file` at
offset 0, `bl_status` at offset 1). -/
def cyttsp_load_bl_regs (env : CyEnv) (st : CySt) : Int × CySt :=
  let st0 : CySt := { st with bl_file := 0, bl_status := 0x10 }
  match ttsp_read_block_data env st0 CY_REG_BASE 16 with
  | (retval, some bs, st1) => (retval, { st1 with bl_file := byteAt bs 0, bl_status := byteAt bs 1 })
  | (retval, none, st1) => (retval, st1)

/-- `cyttsp_bl_app_valid`: the bootloader validity decision. -/
def cyttsp_bl_app_valid (env : CyEnv) (st : CySt) : Int × CySt :=
  let p := cyttsp_load_bl_regs env st
  let st1 := p.2
  if p.1 < 0 then (-ENODEV, st1)
  else if GET_BOOTLOADERMODE st1.bl_status ≠ 0 then
    if IS_VALID_APP st1.bl_status ≠ 0 then (0, st1) else (-ENODEV, st1)
  else if GET_HSTMODE st1.bl_file = CY_OPERATE_MODE then
    if IS_OPERATIONAL_ERR st1.bl_status = 0 then (1, st1) else (-ENODEV, st1)
  else (-ENODEV, st1)

/-- One poll of the exit-bootloader wait loop: `msleep(CY_DELAY_DFLT)`
then `cyttsp_load_bl_regs`. -/
def cyttsp_bl_poll_once (env : CyEnv) (st : CySt) : Int × CySt :=
  cyttsp_load_bl_regs env (msleep st)

/-- State after n polls of the exit-bootloader wait loop. -/
def bl_poll_state (env : CyEnv) (st : CySt) : Nat → CySt
  | 0 => st
  | n + 1 => (cyttsp_bl_poll_once env (bl_poll_state env st n)).2

/-- Poll number n (0-indexed) of the exit-bootloader wait loop read the
bootloader block successfully and saw the bootloader-mode bit clear. -/
def bl_cleared_at (env : CyEnv) (st : CySt) (n : Nat) : Prop :=
  (cyttsp_bl_poll_once env (bl_poll_state env st n)).1 = 0 ∧
    GET_BOOTLOADERMODE (cyttsp_bl_poll_once env (bl_poll_state env st n)).2.bl_status = 0

instance (env : CyEnv) (st : CySt) (n : Nat) : Decidable (bl_cleared_at env st n) := by
  unfold bl_cleared_at; infer_instance

/-- The `do { msleep; load_bl_regs } while ((retval || BOOTLOADERMODE) && (tries++ < CY_DELAY_MAX))`
loop of `cyttsp_exit_bl_mode`, with the C post-increment semantics:
the tries counter is bumped only when the first condition is true, and
the loop body runs once more when the bound is reached.  Returns the
last `retval`, the final value of `tries`, and the final state. -/
def cyttsp_exit_bl_poll (env : CyEnv) : Nat → Nat → CySt → Int × Nat × CySt
  | 0, tries, st => (-1, tries, st)
  | fuel + 1, tries, st =>
    let p := cyttsp_bl_poll_once env st
    if p.1 = 0 ∧ GET_BOOTLOADERMODE p.2.bl_status = 0 then (p.1, tries, p.2)
    else if tries < CY_DELAY_MAX then cyttsp_exit_bl_poll env fuel (tries + 1) p.2
    else (p.1, tries + 1, p.2)

/-- `cyttsp_exit_bl_mode`: write the exit-bootloader command, then poll
the bootloader block until the bootloader-mode bit clears or the tries
budget is exhausted; -ENODEV when exhausted. -/
def cyttsp_exit_bl_mode (env : CyEnv) (st : CySt) : Int × CySt :=
  let w := ttsp_write_block_data env st CY_REG_BASE (bl_cmd_bytes env.pd.bl_keys)
  if w.1 < 0 then (w.1, w.2)
  else
    let q := cyttsp_exit_bl_poll env (CY_DELAY_MAX + 2) 0 w.2
    if q.2.1 ≥ CY_DELAY_MAX then (-ENODEV, q.2.2) else (q.1, q.2.2)

/-- One iteration of the `cyttsp_set_operational_mode` wait loop: read
the 32-byte operational snapshot (no sleep in this loop body). -/
def cyttsp_op_poll_once (env : CyEnv) (st : CySt) : Int × Option (List Nat) × CySt :=
  ttsp_read_block_data env st CY_REG_BASE 32

/-- The read-back test of the `cyttsp_set_operational_mode` wait loop:
the snapshot was delivered and its `act_dist` byte (offset 30) equals
`CY_ACT_DIST_DFLT`. -/
def op_act_dist_ok (obs : Option (List Nat)) : Bool :=
  match obs with
  | some bs => byteAt bs 30 == CY_ACT_DIST_DFLT
  | none => false

/-- The read-back loop of `cyttsp_set_operational_mode`: loop while the
read fails or `act_dist` (byte 30 of the snapshot) differs from
`CY_ACT_DIST_DFLT`, with the same post-increment tries semantics. -/
def cyttsp_op_poll (env : CyEnv) : Nat → Nat → CySt → Int × Nat × CySt
  | 0, tries, st => (-1, tries, st)
  | fuel + 1, tries, st =>
    let p := cyttsp_op_poll_once env st
    if p.1 = 0 ∧ op_act_dist_ok p.2.1 then
      (p.1, tries, p.2.2)
    else if tries < CY_DELAY_MAX then cyttsp_op_poll env fuel (tries + 1) p.2.2
    else (p.1, tries + 1, p.2.2)

/-- `cyttsp_set_operational_mode`: write the operational mode-select
byte, then poll until the read-back active distance equals the default;
-EAGAIN on exhaustion. -/
def cyttsp_set_operational_mode (env : CyEnv) (st : CySt) : Int × CySt :=
  let w := ttsp_write_block_data env st CY_REG_BASE [CY_OPERATE_MODE]
  if w.1 < 0 then (w.1, w.2)
  else
    let q := cyttsp_op_poll env (CY_DELAY_MAX + 2) 0 w.2
    if q.2.1 ≥ CY_DELAY_MAX then (-EAGAIN, q.2.2) else (q.1, q.2.2)

/-- One iteration of the `cyttsp_set_sysinfo_mode` wait loop: msleep,
read the 32-byte sysinfo snapshot, and on success store the firmware
version bytes (offsets 17 and 18 of `struct cyttsp_sysinfo_data`). -/
def cyttsp_sysinfo_poll_once (env : CyEnv) (st : CySt) : Int × CySt :=
  match ttsp_read_block_data env (msleep st) CY_REG_BASE 32 with
  | (retval, some bs, st1) =>
      (retval, { st1 with tts_verh := byteAt bs 17, tts_verl := byteAt bs 18 })
  | (retval, none, st1) => (retval, st1)

/-- The wait loop of `cyttsp_set_sysinfo_mode`: loop while the read
fails or both stored version bytes are zero. -/
def cyttsp_sysinfo_poll (env : CyEnv) : Nat → Nat → CySt → Int × Nat × CySt
  | 0, tries, st => (-1, tries, st)
  | fuel + 1, tries, st =>
    let p := cyttsp_sysinfo_poll_once env st
    if p.1 = 0 ∧ ¬(p.2.tts_verh = 0 ∧ p.2.tts_verl = 0) then (p.1, tries, p.2)
    else if tries < CY_DELAY_MAX then cyttsp_sysinfo_poll env fuel (tries + 1) p.2
    else (p.1, tries + 1, p.2)

/-- `cyttsp_set_sysinfo_mode`: zero the sysinfo snapshot, write the
sysinfo mode-select byte, then poll until the firmware version fields
are non-zero; -EAGAIN on exhaustion. -/
def cyttsp_set_sysinfo_mode (env : CyEnv) (st : CySt) : Int × CySt :=
  let st0 : CySt := { st with tts_verh := 0, tts_verl := 0 }
  let w := ttsp_write_block_data env st0 CY_REG_BASE [CY_SYSINFO_MODE]
  if w.1 < 0 then (w.1, w.2)
  else
    let q := cyttsp_sysinfo_poll env (CY_DELAY_MAX + 2) 0 w.2
    if q.2.1 ≥ CY_DELAY_MAX then (-EAGAIN, q.2.2) else (q.1, q.2.2)

/-- `cyttsp_set_sysinfo_regs`: when any configured interval differs from
the firmware default, write the three interval bytes as one block at
`CY_REG_ACT_INTRVL` and sleep once. -/
def cyttsp_set_sysinfo_regs (env : CyEnv) (st : CySt) : Int × CySt :=
  if env.pd.act_intrvl ≠ CY_ACT_INTRVL_DFLT ∨ env.pd.tch_tmout ≠ CY_TCH_TMOUT_DFLT ∨
      env.pd.lp_intrvl ≠ CY_LP_INTRVL_DFLT then
    let w := ttsp_write_block_data env st CY_REG_ACT_INTRVL
      [env.pd.act_intrvl % 256, env.pd.tch_tmout % 256, env.pd.lp_intrvl % 256]
    (w.1, msleep w.2)
  else (0, st)

/-- `cyttsp_soft_reset`: write the soft-reset command then wait for the
bootloader-ready completion; 0 models `wait_for_completion_timeout`
expiring, a positive value models the completion arriving in time. -/
def cyttsp_soft_reset (env : CyEnv) (st : CySt) : Int × CySt :=
  let w := ttsp_write_block_data env st CY_REG_BASE [CY_SOFT_RESET_MODE]
  if w.1 < 0 then (w.1, w.2)
  else (if env.blReady then 1 else 0, w.2)

/-- `cyttsp_act_dist_setup`: single write of the platform active
distance byte at `CY_REG_ACT_DIST`. -/
def cyttsp_act_dist_setup (env : CyEnv) (st : CySt) : Int × CySt :=
  ttsp_write_block_data env st CY_REG_ACT_DIST [env.pd.act_dist % 256]

/-- `cyttsp_hndshk`: write back the host-mode byte XOR `CY_HNDSHK_BIT`. -/
def cyttsp_hndshk (env : CyEnv) (st : CySt) (hst_mode : Nat) : Int × CySt :=
  ttsp_write_block_data env st CY_REG_BASE [(hst_mode ^^^ CY_HNDSHK_BIT) % 256]

/-- `cyttsp_report_slot`: occupied slot report (slot, x, y, touch-major z). -/
def cyttsp_report_slot (st : CySt) (slot x y z : Nat) : CySt :=
  { st with events := st.events ++ [.slotOccupied slot x y z] }

/-- `cyttsp_report_slot_empty`. -/
def cyttsp_report_slot_empty (st : CySt) (slot : Nat) : CySt :=
  { st with events := st.events ++ [.slotEmpty slot] }

/-- `cyttsp_extract_track_ids`: unpack the four track IDs from the two
packed-nibble bytes `touch12_id` and `touch34_id`. -/
def cyttsp_extract_track_ids (touch12_id touch34_id : Nat) : List Nat :=
  [touch12_id >>> 4, touch12_id &&& 0xF, touch34_id >>> 4, touch34_id &&& 0xF]

/-- `cyttsp_get_tch` combined with the big-endian field decode: the
(x, y, z) of raw contact `idx` in the operational snapshot.  Byte
offsets follow `struct cyttsp_xydata`: tch1 at 3, tch2 at 9, tch3 at
16, tch4 at 22. -/
def cyttsp_get_tch (bs : List Nat) (idx : Nat) : Nat × Nat × Nat :=
  let off := match idx with
    | 0 => 3
    | 1 => 9
    | 2 => 16
    | _ => 22
  (be16At bs off, be16At bs (off + 2), byteAt bs (off + 4))

/-- The first reporting loop of `cyttsp_handle_tchdata`: for each of the
`n` current touches, OR its track bit into `used` and report the slot. -/
def cyttsp_report_touches (bs : List Nat) (ids : List Nat) (n : Nat) (st : CySt) :
    Nat × CySt :=
  (List.range n).foldl
    (fun acc i =>
      let id := ids.getD i 0
      let t := cyttsp_get_tch bs i
      (acc.1 ||| (1 <<< id), cyttsp_report_slot acc.2 id t.1 t.2.1 t.2.2))
    (0, st)

/-- The second reporting loop: every slot whose bit is not in `used`
is reported empty. -/
def cyttsp_report_empties (used : Nat) (st : CySt) : CySt :=
  (List.range CY_MAX_ID).foldl
    (fun st1 i => if used &&& (1 <<< i) = 0 then cyttsp_report_slot_empty st1 i else st1)
    st

/-- `cyttsp_handle_tchdata`: read the operational snapshot, optionally
write the flow-control handshake, validate the frame, then report the
touches, the empty slots and the sync marker. -/
def cyttsp_handle_tchdata (env : CyEnv) (st : CySt) : Int × CySt :=
  let rd := ttsp_read_block_data env st CY_REG_BASE 32
  if rd.1 ≠ 0 then (0, rd.2.2)
  else
    let bs := rd.2.1.getD []
    let hs := if env.pd.use_hndshk then cyttsp_hndshk env rd.2.2 (byteAt bs 0) else (0, rd.2.2)
    if hs.1 ≠ 0 then (0, hs.2)
    else
      let st1 := hs.2
      let tt_mode := byteAt bs 1
      let tt_stat := byteAt bs 2
      let num0 := GET_NUM_TOUCHES tt_stat
      if st1.power_state = .CY_IDLE_STATE then (0, st1)
      else if GET_BOOTLOADERMODE tt_mode ≠ 0 then (-1, st1)
      else
        let num : Nat :=
          if IS_LARGE_AREA tt_stat = 1 then 0
          else if num0 > CY_MAX_FINGER then 0
          else if IS_BAD_PKT tt_mode ≠ 0 then 0
          else num0
        let ids := cyttsp_extract_track_ids (byteAt bs 8) (byteAt bs 21)
        let r := cyttsp_report_touches bs ids num st1
        let st2 := cyttsp_report_empties r.1 r.2
        (0, { st2 with events := st2.events ++ [.sync] })

/-- `cyttsp_irq`: in bootloader state the interrupt completes the
bootloader-ready wait (no modelled state change); otherwise the touch
data is processed, and a negative result (bootloader re-entry) triggers
exit-bootloader recovery, setting the power state from its outcome. -/
def cyttsp_irq (env : CyEnv) (st : CySt) : CySt :=
  if st.power_state = .CY_BL_STATE then st
  else
    let p := cyttsp_handle_tchdata env st
    if p.1 < 0 then
      let q := cyttsp_exit_bl_mode env p.2
      if q.1 ≠ 0 then { q.2 with power_state := .CY_IDLE_STATE }
      else { q.2 with power_state := .CY_ACTIVE_STATE }
    else p.2

/-- Tail of `cyttsp_power_on` from the `no_bl_bypass` label: sysinfo
mode entry, interval configuration, operational mode entry and the
active-distance write; on full success the power state becomes Active
and 0 is returned. -/
def cyttsp_power_on_sysinfo (env : CyEnv) (st : CySt) : Int × CySt :=
  let a := cyttsp_set_sysinfo_mode env st
  if a.1 < 0 then (a.1, a.2)
  else
    let b := cyttsp_set_sysinfo_regs env a.2
    if b.1 < 0 then (b.1, b.2)
    else
      let c := cyttsp_set_operational_mode env b.2
      if c.1 < 0 then (c.1, c.2)
      else
        let d := cyttsp_act_dist_setup env c.2
        if d.1 < 0 then (d.1, d.2)
        else ((0 : Int), { d.2 with power_state := .CY_ACTIVE_STATE })

/-- `cyttsp_power_on`: the attach sequence.  Note the source control
flow: a soft-reset return of exactly 0 (completion timeout) jumps to
`bypass` returning 0; a negative soft-reset return falls through to the
bootloader validity check; `CY_IDLE_STATE` is assigned only after a
successful exit-bootloader step. -/
def cyttsp_power_on (env : CyEnv) (st : CySt) : Int × CySt :=
  let stb : CySt := { st with power_state := .CY_BL_STATE }
  if env.irqRetval < 0 then (env.irqRetval, stb)
  else
    let r := cyttsp_soft_reset env stb
    if r.1 = 0 then ((0 : Int), r.2)
    else
      let v := cyttsp_bl_app_valid env r.2
      if v.1 < 0 then (v.1, v.2)
      else if v.1 > 0 then cyttsp_power_on_sysinfo env v.2
      else
        let e := cyttsp_exit_bl_mode env v.2
        if e.1 < 0 then (e.1, e.2)
        else cyttsp_power_on_sysinfo env { e.2 with power_state := .CY_IDLE_STATE }

/-- `cyttsp_suspend`: when sleep is configured and the session is
Active, write the sleep-mode byte (the numeric `use_sleep` value,
truncated to a byte) at `CY_REG_BASE`; on write success the power
state becomes Sleep.  Otherwise a no-op returning 0. -/
def cyttsp_suspend (env : CyEnv) (st : CySt) : Int × CySt :=
  if env.pd.use_sleep ≠ 0 ∧ st.power_state = .CY_ACTIVE_STATE then
    let w := ttsp_write_block_data env st CY_REG_BASE [env.pd.use_sleep % 256]
    if w.1 ≥ 0 then (w.1, { w.2 with power_state := .CY_SLEEP_STATE })
    else (w.1, w.2)
  else (0, st)

/-! Spec-side rendering of the bootloader-status decision table (§4.2
step 2 of the specification), stated in plain arithmetic on the two
status bytes, independently of the bitwise macros of the source. -/

/-- The three outcomes of the bootloader validity check named by the
specification. -/
inductive BlBranch where
  | exitBootloader
  | deviceNotReady
  | skipToSysinfo
deriving DecidableEq, Repr

/-- The decision table of §4.2 step 2: bootloader-mode bit is bit 4 of
the status byte, app-valid bit is bit 0 of the status byte, host-mode
nibble is bits 4-6 of the file byte, operational-error bits are the low
6 bits of the status byte. -/
def spec_bl_decision (bl_file bl_status : Nat) : BlBranch :=
  if bl_status / 16 % 2 = 1 then
    if bl_status % 2 = 1 then .exitBootloader else .deviceNotReady
  else if bl_file / 16 % 8 = 0 ∧ bl_status % 64 = 0 then .skipToSysinfo
  else .deviceNotReady

/-! Concrete fixtures: session states, platform data and bus
environments used to evaluate the model on explicit inputs. -/

/-- Freshly attached session state: Idle, zeroed snapshots, no bus
traffic, no events. -/
def cyttsp_st0 : CySt :=
  { power_state := .CY_IDLE_STATE, bl_file := 0, bl_status := 0, tts_verh := 0,
    tts_verl := 0, reads := 0, writes := 0, delays := 0, events := [], wlog := [] }

/-- Session state in operational (Active) power state. -/
def cyttsp_stActive : CySt := { cyttsp_st0 with power_state := .CY_ACTIVE_STATE }

/-- Default platform data of the board file: sleep enabled, handshake
off, firmware-default intervals, no platform key array. -/
def cyttsp_pd_dflt : CyPlatformData :=
  { use_hndshk := false, use_sleep := 1, act_dist := 0xF8, act_intrvl := CY_ACT_INTRVL_DFLT,
    tch_tmout := CY_TCH_TMOUT_DFLT, lp_intrvl := CY_LP_INTRVL_DFLT, bl_keys := none }

/-- Platform data with the flow-control handshake enabled. -/
def cyttsp_pd_hndshk : CyPlatformData := { cyttsp_pd_dflt with use_hndshk := true }

/-- Bus on which every read delivers 32 zero bytes and every write
succeeds. -/
def env_ok_zeros : CyEnv :=
  { pd := cyttsp_pd_dflt, readRes := fun _ => .ok (List.replicate 32 0),
    writeRes := fun _ => .ok, irqRetval := 0, blReady := true }

/-- Bus on which every read and every write fails with -ENODEV-style
errors. -/
def env_all_fail : CyEnv :=
  { pd := cyttsp_pd_dflt, readRes := fun _ => .fail 18,
    writeRes := fun _ => .fail 18, irqRetval := 0, blReady := true }

/-- Bus on which every read fails but every write succeeds. -/
def env_reads_fail : CyEnv :=
  { pd := cyttsp_pd_dflt, readRes := fun _ => .fail 18,
    writeRes := fun _ => .ok, irqRetval := 0, blReady := true }

/-- Bus whose first read and first write fail transiently, with every
later call succeeding. -/
def env_retry1 : CyEnv :=
  { pd := cyttsp_pd_dflt,
    readRes := fun i => if i = 0 then .fail 5 else .ok (List.replicate 32 7),
    writeRes := fun i => if i = 0 then .fail 5 else .ok,
    irqRetval := 0, blReady := true }

/-- Healthy bus, but the bootloader-ready completion never arrives
before the soft-reset timeout. -/
def env_timeout : CyEnv :=
  { pd := cyttsp_pd_dflt, readRes := fun _ => .ok (List.replicate 32 0),
    writeRes := fun _ => .ok, irqRetval := 0, blReady := false }

/-- Bootloader register block reporting bootloader mode with a valid
application (bl_file 0x00, bl_status 0x11). -/
def bl_bytes_valid : List Nat := [0x00, 0x11] ++ List.replicate 14 0

/-- Bus delivering `bl_bytes_valid` on every read. -/
def env_bl_valid : CyEnv :=
  { pd := cyttsp_pd_dflt, readRes := fun _ => .ok bl_bytes_valid,
    writeRes := fun _ => .ok, irqRetval := 0, blReady := true }

/-- Operational frame with 2 touches: track 3 at (100, 200) z 50 and
track 9 at (400, 10) z 5, packed as in `struct cyttsp_xydata`. -/
def frameC3 : List Nat :=
  [0, 0, 2,
   0, 100, 0, 200, 50,
   0x39,
   1, 0x90, 0, 10, 5,
   0, 0,
   0, 0, 0, 0, 0,
   0,
   0, 0, 0, 0, 0,
   0, 0, 0,
   0, 0]

/-- Bus delivering the two-touch frame `frameC3` on every read. -/
def env_frameC3 : CyEnv :=
  { pd := cyttsp_pd_dflt, readRes := fun _ => .ok frameC3,
    writeRes := fun _ => .ok, irqRetval := 0, blReady := true }

/-- Operational frame whose tt_mode byte has the bootloader-mode bit
set. -/
def frame_blmode : List Nat := [0, 0x10] ++ List.replicate 30 0

/-- Handshake configured, frame reads deliver a bootloader-mode frame,
and every bus write fails: the handshake write can never succeed. -/
def env_c4_cex : CyEnv :=
  { pd := cyttsp_pd_hndshk, readRes := fun _ => .ok frame_blmode,
    writeRes := fun _ => .fail 4, irqRetval := 0, blReady := true }

/-- First read delivers a bootloader-mode frame, later reads deliver a
cleared bootloader block, writes succeed: recovery succeeds. -/
def env_c4_wit : CyEnv :=
  { pd := cyttsp_pd_dflt,
    readRes := fun i => if i = 0 then .ok frame_blmode else .ok (List.replicate 16 0),
    writeRes := fun _ => .ok, irqRetval := 0, blReady := true }

/-! Transport lemmas: shape and sign of the retrying read and write. -/

theorem byteAt_lt_256 (bs : List Nat) (h : ∀ b ∈ bs, b < 256) (i : Nat) :
    byteAt bs i < 256 := by
  unfold byteAt
  rcases hq : bs[i]? with _ | v
  · simp [List.getD, hq]
  · have hv : v ∈ bs := List.getElem?_mem hq
    simp [List.getD, hq]
    exact h v hv

theorem ttsp_read_try_spec (env : CyEnv) (l : Nat) :
    ∀ fuel st, ∃ n m,
      (ttsp_read_try env l fuel st).2.2 = { st with reads := n, delays := m } ∧
      (((ttsp_read_try env l fuel st).1 = 0 ∧
          ∃ bs, (ttsp_read_try env l fuel st).2.1 = some bs ∧ ∀ b ∈ bs, b < 256) ∨
        ((ttsp_read_try env l fuel st).1 < 0 ∧ (ttsp_read_try env l fuel st).2.1 = none)) := by
  intro fuel
  induction fuel with
  | zero =>
    intro st
    exact ⟨st.reads, st.delays, rfl, Or.inr ⟨by norm_num [ttsp_read_try], rfl⟩⟩
  | succ f ih =>
    intro st
    cases h : env.readRes st.reads with
    | ok bytes =>
      have hstep : ttsp_read_try env l (f + 1) st =
          (0, some ((bytes.take l).map (· % 256)), { st with reads := st.reads + 1 }) := by
        rw [ttsp_read_try, h]
      rw [hstep]
      refine ⟨st.reads + 1, st.delays, rfl, Or.inl ⟨rfl, _, rfl, ?_⟩⟩
      intro b hb
      rcases List.mem_map.mp hb with ⟨a, _, rfl⟩
      exact Nat.mod_lt _ (by norm_num)
    | fail e =>
      by_cases hf : f = 0
      · subst hf
        have hstep : ttsp_read_try env l 1 st =
            (Int.negSucc e, none, { st with reads := st.reads + 1, delays := st.delays + 1 }) := by
          rw [ttsp_read_try, h]
          rfl
        rw [hstep]
        exact ⟨st.reads + 1, st.delays + 1, rfl,
          Or.inr ⟨Int.negSucc_lt_zero e, rfl⟩⟩
      · have hstep : ttsp_read_try env l (f + 1) st =
            ttsp_read_try env l f { st with reads := st.reads + 1, delays := st.delays + 1 } := by
          rw [ttsp_read_try, h]
          simp [msleep, hf]
        rw [hstep]
        rcases ih { st with reads := st.reads + 1, delays := st.delays + 1 } with
          ⟨n, m, heq, hres⟩
        exact ⟨n, m, heq, hres⟩

theorem ttsp_read_block_data_spec (env : CyEnv) (st : CySt) (c l : Nat) :
    ∃ n m,
      (ttsp_read_block_data env st c l).2.2 = { st with reads := n, delays := m } ∧
      (((ttsp_read_block_data env st c l).1 = 0 ∧
          ∃ bs, (ttsp_read_block_data env st c l).2.1 = some bs ∧ ∀ b ∈ bs, b < 256) ∨
        ((ttsp_read_block_data env st c l).1 < 0 ∧
          (ttsp_read_block_data env st c l).2.1 = none)) := by
  by_cases hl : l = 0
  · have hstep : ttsp_read_block_data env st c l = (-EINVAL, none, st) := by
      rw [ttsp_read_block_data, if_pos hl]
    rw [hstep]
    exact ⟨st.reads, st.delays, rfl, Or.inr ⟨by norm_num [EINVAL], rfl⟩⟩
  · have hstep : ttsp_read_block_data env st c l = ttsp_read_try env l CY_NUM_RETRY st := by
      rw [ttsp_read_block_data, if_neg hl]
    rw [hstep]
    exact ttsp_read_try_spec env l CY_NUM_RETRY st

theorem ttsp_write_try_spec (env : CyEnv) (c : Nat) (d : List Nat) :
    ∀ fuel st, ∃ n m,
      (((ttsp_write_try env c d fuel st).1 = 0 ∧
          (ttsp_write_try env c d fuel st).2 =
            { st with writes := n, delays := m, wlog := st.wlog ++ [(c, d)] }) ∨
        ((ttsp_write_try env c d fuel st).1 < 0 ∧
          (ttsp_write_try env c d fuel st).2 = { st with writes := n, delays := m })) := by
  intro fuel
  induction fuel with
  | zero =>
    intro st
    exact ⟨st.writes, st.delays, Or.inr ⟨by norm_num [ttsp_write_try], rfl⟩⟩
  | succ f ih =>
    intro st
    cases h : env.writeRes st.writes with
    | ok =>
      have hstep : ttsp_write_try env c d (f + 1) st =
          (0, { st with writes := st.writes + 1, wlog := st.wlog ++ [(c, d)] }) := by
        rw [ttsp_write_try, h]
      rw [hstep]
      exact ⟨st.writes + 1, st.delays, Or.inl ⟨rfl, rfl⟩⟩
    | fail e =>
      by_cases hf : f = 0
      · subst hf
        have hstep : ttsp_write_try env c d 1 st =
            (Int.negSucc e, { st with writes := st.writes + 1, delays := st.delays + 1 }) := by
          rw [ttsp_write_try, h]
          rfl
        rw [hstep]
        exact ⟨st.writes + 1, st.delays + 1, Or.inr ⟨Int.negSucc_lt_zero e, rfl⟩⟩
      · have hstep : ttsp_write_try env c d (f + 1) st =
            ttsp_write_try env c d f { st with writes := st.writes + 1, delays := st.delays + 1 } := by
          rw [ttsp_write_try, h]
          simp [msleep, hf]
        rw [hstep]
        rcases ih { st with writes := st.writes + 1, delays := st.delays + 1 } with
          ⟨n, m, hres⟩
        exact ⟨n, m, hres⟩

theorem ttsp_write_block_data_spec (env : CyEnv) (st : CySt) (c : Nat) (d : List Nat) :
    ∃ n m,
      (((ttsp_write_block_data env st c d).1 = 0 ∧
          (ttsp_write_block_data env st c d).2 =
            { st with writes := n, delays := m, wlog := st.wlog ++ [(c, d)] }) ∨
        ((ttsp_write_block_data env st c d).1 < 0 ∧
          (ttsp_write_block_data env st c d).2 = { st with writes := n, delays := m })) := by
  by_cases hl : d.length = 0
  · have hstep : ttsp_write_block_data env st c d = (-EINVAL, st) := by
      rw [ttsp_write_block_data, if_pos hl]
    rw [hstep]
    exact ⟨st.writes, st.delays, Or.inr ⟨by norm_num [EINVAL], rfl⟩⟩
  · have hstep : ttsp_write_block_data env st c d = ttsp_write_try env c d CY_NUM_RETRY st := by
      rw [ttsp_write_block_data, if_neg hl]
    rw [hstep]
    exact ttsp_write_try_spec env c d CY_NUM_RETRY st

theorem ttsp_read_try_success_counts (env : CyEnv) (l : Nat) :
    ∀ fuel k st, k < fuel →
      (∀ j, j < k → (env.readRes (st.reads + j)).attemptOk = false) →
      (env.readRes (st.reads + k)).attemptOk = true →
      (ttsp_read_try env l fuel st).1 = 0 ∧
      (ttsp_read_try env l fuel st).2.2.reads = st.reads + (k + 1) ∧
      (ttsp_read_try env l fuel st).2.2.delays = st.delays + k := by
  intro fuel
  induction fuel with
  | zero => intro k st hk; omega
  | succ f ih =>
    intro k st hk hfail hok
    cases k with
    | zero =>
      cases h : env.readRes st.reads with
      | ok bytes =>
        have hstep : ttsp_read_try env l (f + 1) st =
            (0, some ((bytes.take l).map (· % 256)), { st with reads := st.reads + 1 }) := by
          rw [ttsp_read_try, h]
        rw [hstep]
        exact ⟨rfl, rfl, rfl⟩
      | fail e =>
        rw [Nat.add_zero, h] at hok
        simp [BusReadRes.attemptOk] at hok
    | succ k2 =>
      cases h : env.readRes st.reads with
      | ok bytes =>
        have h0 := hfail 0 (Nat.succ_pos k2)
        rw [Nat.add_zero, h] at h0
        simp [BusReadRes.attemptOk] at h0
      | fail e =>
        have hf : f ≠ 0 := by omega
        have hstep : ttsp_read_try env l (f + 1) st =
            ttsp_read_try env l f { st with reads := st.reads + 1, delays := st.delays + 1 } := by
          rw [ttsp_read_try, h]
          simp [msleep, hf]
        rw [hstep]
        have hmain := ih k2 { st with reads := st.reads + 1, delays := st.delays + 1 }
          (by omega)
          (by
            intro j hj
            have harith : st.reads + 1 + j = st.reads + (j + 1) := by omega
            simp only [harith]
            exact hfail (j + 1) (by omega))
          (by
            have harith : st.reads + 1 + k2 = st.reads + (k2 + 1) := by omega
            simp only [harith]
            exact hok)
        refine ⟨hmain.1, ?_, ?_⟩
        · rw [hmain.2.1]
          show st.reads + 1 + (k2 + 1) = st.reads + (k2 + 1 + 1)
          omega
        · rw [hmain.2.2]
          show st.delays + 1 + k2 = st.delays + (k2 + 1)
          omega

theorem ttsp_read_try_allfail_counts (env : CyEnv) (l : Nat) :
    ∀ fuel st, 0 < fuel →
      (∀ j, j < fuel → (env.readRes (st.reads + j)).attemptOk = false) →
      (ttsp_read_try env l fuel st).1 = (env.readRes (st.reads + (fuel - 1))).errval ∧
      (ttsp_read_try env l fuel st).1 < 0 ∧
      (ttsp_read_try env l fuel st).2.2.reads = st.reads + fuel := by
  intro fuel
  induction fuel with
  | zero => intro st h0; omega
  | succ f ih =>
    intro st h0 hfail
    cases h : env.readRes st.reads with
    | ok bytes =>
      have hj := hfail 0 (Nat.succ_pos f)
      rw [Nat.add_zero, h] at hj
      simp [BusReadRes.attemptOk] at hj
    | fail e =>
      by_cases hf : f = 0
      · subst hf
        have hstep : ttsp_read_try env l 1 st =
            (Int.negSucc e, none, { st with reads := st.reads + 1, delays := st.delays + 1 }) := by
          rw [ttsp_read_try, h]
          rfl
        rw [hstep]
        refine ⟨?_, Int.negSucc_lt_zero e, rfl⟩
        show Int.negSucc e = (env.readRes st.reads).errval
        rw [h]
        rfl
      · have hstep : ttsp_read_try env l (f + 1) st =
            ttsp_read_try env l f { st with reads := st.reads + 1, delays := st.delays + 1 } := by
          rw [ttsp_read_try, h]
          simp [msleep, hf]
        rw [hstep]
        have hmain := ih { st with reads := st.reads + 1, delays := st.delays + 1 }
          (by omega)
          (by
            intro j hj
            have harith : st.reads + 1 + j = st.reads + (j + 1) := by omega
            simp only [harith]
            exact hfail (j + 1) (by omega))
        refine ⟨?_, hmain.2.1, ?_⟩
        · rw [hmain.1]
          show (env.readRes (st.reads + 1 + (f - 1))).errval =
            (env.readRes (st.reads + (f + 1 - 1))).errval
          have harith : st.reads + 1 + (f - 1) = st.reads + (f + 1 - 1) := by omega
          rw [harith]
        · rw [hmain.2.2]
          show st.reads + 1 + f = st.reads + (f + 1)
          omega

theorem ttsp_write_try_success_counts (env : CyEnv) (c : Nat) (d : List Nat) :
    ∀ fuel k st, k < fuel →
      (∀ j, j < k → (env.writeRes (st.writes + j)).attemptOk = false) →
      (env.writeRes (st.writes + k)).attemptOk = true →
      (ttsp_write_try env c d fuel st).1 = 0 ∧
      (ttsp_write_try env c d fuel st).2.writes = st.writes + (k + 1) ∧
      (ttsp_write_try env c d fuel st).2.delays = st.delays + k := by
  intro fuel
  induction fuel with
  | zero => intro k st hk; omega
  | succ f ih =>
    intro k st hk hfail hok
    cases k with
    | zero =>
      cases h : env.writeRes st.writes with
      | ok =>
        have hstep : ttsp_write_try env c d (f + 1) st =
            (0, { st with writes := st.writes + 1, wlog := st.wlog ++ [(c, d)] }) := by
          rw [ttsp_write_try, h]
        rw [hstep]
        exact ⟨rfl, rfl, rfl⟩
      | fail e =>
        rw [Nat.add_zero, h] at hok
        simp [BusWriteRes.attemptOk] at hok
    | succ k2 =>
      cases h : env.writeRes st.writes with
      | ok =>
        have h0 := hfail 0 (Nat.succ_pos k2)
        rw [Nat.add_zero, h] at h0
        simp [BusWriteRes.attemptOk] at h0
      | fail e =>
        have hf : f ≠ 0 := by omega
        have hstep : ttsp_write_try env c d (f + 1) st =
            ttsp_write_try env c d f { st with writes := st.writes + 1, delays := st.delays + 1 } := by
          rw [ttsp_write_try, h]
          simp [msleep, hf]
        rw [hstep]
        have hmain := ih k2 { st with writes := st.writes + 1, delays := st.delays + 1 }
          (by omega)
          (by
            intro j hj
            have harith : st.writes + 1 + j = st.writes + (j + 1) := by omega
            simp only [harith]
            exact hfail (j + 1) (by omega))
          (by
            have harith : st.writes + 1 + k2 = st.writes + (k2 + 1) := by omega
            simp only [harith]
            exact hok)
        refine ⟨hmain.1, ?_, ?_⟩
        · rw [hmain.2.1]
          show st.writes + 1 + (k2 + 1) = st.writes + (k2 + 1 + 1)
          omega
        · rw [hmain.2.2]
          show st.delays + 1 + k2 = st.delays + (k2 + 1)
          omega

theorem ttsp_write_try_allfail_counts (env : CyEnv) (c : Nat) (d : List Nat) :
    ∀ fuel st, 0 < fuel →
      (∀ j, j < fuel → (env.writeRes (st.writes + j)).attemptOk = false) →
      (ttsp_write_try env c d fuel st).1 = (env.writeRes (st.writes + (fuel - 1))).errval ∧
      (ttsp_write_try env c d fuel st).1 < 0 ∧
      (ttsp_write_try env c d fuel st).2.writes = st.writes + fuel := by
  intro fuel
  induction fuel with
  | zero => intro st h0; omega
  | succ f ih =>
    intro st h0 hfail
    cases h : env.writeRes st.writes with
    | ok =>
      have hj := hfail 0 (Nat.succ_pos f)
      rw [Nat.add_zero, h] at hj
      simp [BusWriteRes.attemptOk] at hj
    | fail e =>
      by_cases hf : f = 0
      · subst hf
        have hstep : ttsp_write_try env c d 1 st =
            (Int.negSucc e, { st with writes := st.writes + 1, delays := st.delays + 1 }) := by
          rw [ttsp_write_try, h]
          rfl
        rw [hstep]
        refine ⟨?_, Int.negSucc_lt_zero e, rfl⟩
        show Int.negSucc e = (env.writeRes st.writes).errval
        rw [h]
        rfl
      · have hstep : ttsp_write_try env c d (f + 1) st =
            ttsp_write_try env c d f { st with writes := st.writes + 1, delays := st.delays + 1 } := by
          rw [ttsp_write_try, h]
          simp [msleep, hf]
        rw [hstep]
        have hmain := ih { st with writes := st.writes + 1, delays := st.delays + 1 }
          (by omega)
          (by
            intro j hj
            have harith : st.writes + 1 + j = st.writes + (j + 1) := by omega
            simp only [harith]
            exact hfail (j + 1) (by omega))
        refine ⟨?_, hmain.2.1, ?_⟩
        · rw [hmain.1]
          show (env.writeRes (st.writes + 1 + (f - 1))).errval =
            (env.writeRes (st.writes + (f + 1 - 1))).errval
          have harith : st.writes + 1 + (f - 1) = st.writes + (f + 1 - 1) := by omega
          rw [harith]
        · rw [hmain.2.2]
          show st.writes + 1 + f = st.writes + (f + 1)
          omega

/-- C5: for every block read or write with a non-null buffer and nonzero
length, if the underlying bus operation fails k times with k < 4 before
succeeding, the call succeeds after exactly k+1 bus calls with k
inter-attempt delays interposed; if the bus fails 4 or more consecutive
times, the call fails with the bus error after exactly 4 bus calls. -/
theorem claim_C5_transport_retry (env : CyEnv) (st : CySt) (command : Nat) (length : Nat)
    (data : List Nat) (k : Nat) :
    (length ≠ 0 → k < CY_NUM_RETRY →
      (∀ j, j < k → (env.readRes (st.reads + j)).attemptOk = false) →
      (env.readRes (st.reads + k)).attemptOk = true →
      (ttsp_read_block_data env st command length).1 = 0 ∧
      (ttsp_read_block_data env st command length).2.2.reads = st.reads + (k + 1) ∧
      (ttsp_read_block_data env st command length).2.2.delays = st.delays + k) ∧
    (length ≠ 0 →
      (∀ j, j < CY_NUM_RETRY → (env.readRes (st.reads + j)).attemptOk = false) →
      (ttsp_read_block_data env st command length).1 =
        (env.readRes (st.reads + (CY_NUM_RETRY - 1))).errval ∧
      (ttsp_read_block_data env st command length).1 < 0 ∧
      (ttsp_read_block_data env st command length).2.2.reads = st.reads + CY_NUM_RETRY) ∧
    (data ≠ [] → k < CY_NUM_RETRY →
      (∀ j, j < k → (env.writeRes (st.writes + j)).attemptOk = false) →
      (env.writeRes (st.writes + k)).attemptOk = true →
      (ttsp_write_block_data env st command data).1 = 0 ∧
      (ttsp_write_block_data env st command data).2.writes = st.writes + (k + 1) ∧
      (ttsp_write_block_data env st command data).2.delays = st.delays + k) ∧
    (data ≠ [] →
      (∀ j, j < CY_NUM_RETRY → (env.writeRes (st.writes + j)).attemptOk = false) →
      (ttsp_write_block_data env st command data).1 =
        (env.writeRes (st.writes + (CY_NUM_RETRY - 1))).errval ∧
      (ttsp_write_block_data env st command data).1 < 0 ∧
      (ttsp_write_block_data env st command data).2.writes = st.writes + CY_NUM_RETRY) := by
  have hrd : length ≠ 0 →
      ttsp_read_block_data env st command length = ttsp_read_try env length CY_NUM_RETRY st := by
    intro hl
    rw [ttsp_read_block_data, if_neg hl]
  have hwr : data ≠ [] →
      ttsp_write_block_data env st command data = ttsp_write_try env command data CY_NUM_RETRY st := by
    intro hd
    rw [ttsp_write_block_data, if_neg (by simpa using hd)]
  refine ⟨?_, ?_, ?_, ?_⟩
  · intro hl hk hfail hok
    rw [hrd hl]
    exact ttsp_read_try_success_counts env length CY_NUM_RETRY k st hk hfail hok
  · intro hl hfail
    rw [hrd hl]
    exact ttsp_read_try_allfail_counts env length CY_NUM_RETRY st (by norm_num [CY_NUM_RETRY]) hfail
  · intro hd hk hfail hok
    rw [hwr hd]
    exact ttsp_write_try_success_counts env command data CY_NUM_RETRY k st hk hfail hok
  · intro hd hfail
    rw [hwr hd]
    exact ttsp_write_try_allfail_counts env command data CY_NUM_RETRY st (by norm_num [CY_NUM_RETRY]) hfail

/-- Witness for C5: on a bus whose first call fails transiently, read
and write succeed with 2 bus calls and 1 delay; on a dead bus both fail
with the bus error after exactly 4 calls. -/
theorem claim_C5_transport_retry_witness :
    (ttsp_read_block_data env_retry1 cyttsp_st0 CY_REG_BASE 32).1 = 0 ∧
    (ttsp_read_block_data env_retry1 cyttsp_st0 CY_REG_BASE 32).2.2.reads = 2 ∧
    (ttsp_read_block_data env_retry1 cyttsp_st0 CY_REG_BASE 32).2.2.delays = 1 ∧
    (ttsp_write_block_data env_retry1 cyttsp_st0 CY_REG_BASE [9]).1 = 0 ∧
    (ttsp_write_block_data env_retry1 cyttsp_st0 CY_REG_BASE [9]).2.writes = 2 ∧
    (ttsp_write_block_data env_retry1 cyttsp_st0 CY_REG_BASE [9]).2.delays = 1 ∧
    (ttsp_read_block_data env_all_fail cyttsp_st0 CY_REG_BASE 32).1 = -19 ∧
    (ttsp_read_block_data env_all_fail cyttsp_st0 CY_REG_BASE 32).2.2.reads = 4 ∧
    (ttsp_write_block_data env_all_fail cyttsp_st0 CY_REG_BASE [9]).1 = -19 ∧
    (ttsp_write_block_data env_all_fail cyttsp_st0 CY_REG_BASE [9]).2.writes = 4 := by
  have h1 := (claim_C5_transport_retry env_retry1 cyttsp_st0 CY_REG_BASE 32 [9] 1).1
    (by norm_num) (by norm_num [CY_NUM_RETRY]) (by decide) (by decide)
  have h2 := (claim_C5_transport_retry env_retry1 cyttsp_st0 CY_REG_BASE 32 [9] 1).2.2.1
    (by simp) (by norm_num [CY_NUM_RETRY]) (by decide) (by decide)
  have h3 := (claim_C5_transport_retry env_all_fail cyttsp_st0 CY_REG_BASE 32 [9] 0).2.1
    (by norm_num) (by decide)
  have h4 := (claim_C5_transport_retry env_all_fail cyttsp_st0 CY_REG_BASE 32 [9] 0).2.2.2
    (by simp) (by decide)
  exact ⟨h1.1, h1.2.1, h1.2.2, h2.1, h2.2.1, h2.2.2,
    h3.1.trans (by decide), h3.2.2, h4.1.trans (by decide), h4.2.2⟩

theorem cyttsp_load_bl_regs_spec (env : CyEnv) (st : CySt) :
    ∃ n m b1 b2,
      (cyttsp_load_bl_regs env st).2 =
        { st with reads := n, delays := m, bl_file := b1, bl_status := b2 } ∧
      b1 < 256 ∧ b2 < 256 ∧
      ((cyttsp_load_bl_regs env st).1 = 0 ∨ (cyttsp_load_bl_regs env st).1 < 0) := by
  rcases hE : ttsp_read_block_data env { st with bl_file := 0, bl_status := 0x10 }
      CY_REG_BASE 16 with ⟨r, obs, st1⟩
  have hspec := ttsp_read_block_data_spec env { st with bl_file := 0, bl_status := 0x10 }
    CY_REG_BASE 16
  rw [hE] at hspec
  rcases hspec with ⟨n, m, heq, hres⟩
  cases obs with
  | none =>
    have hload : cyttsp_load_bl_regs env st = (r, st1) := by
      simp only [cyttsp_load_bl_regs, hE]
    have heq2 : st1 =
        { st with reads := n, delays := m, bl_file := 0, bl_status := 0x10 } := heq
    rcases hres with ⟨hr0, hobs⟩ | ⟨hrneg, _⟩
    · exact absurd hobs (by simp)
    · refine ⟨n, m, 0, 0x10, ?_, by norm_num, by norm_num, Or.inr (by rw [hload]; exact hrneg)⟩
      rw [hload, heq2]
  | some bs =>
    have hload : cyttsp_load_bl_regs env st =
        (r, { st1 with bl_file := byteAt bs 0, bl_status := byteAt bs 1 }) := by
      simp only [cyttsp_load_bl_regs, hE]
    have heq2 : st1 =
        { st with reads := n, delays := m, bl_file := 0, bl_status := 0x10 } := heq
    rcases hres with ⟨hr0, bs2, hobs, hlt⟩ | ⟨_, hobs⟩
    · have hbs : bs2 = bs := by
        have hx := hobs.symm
        simpa using hx
      rw [hbs] at hlt
      refine ⟨n, m, byteAt bs 0, byteAt bs 1, ?_, byteAt_lt_256 bs hlt 0,
        byteAt_lt_256 bs hlt 1, Or.inl (by rw [hload]; exact hr0)⟩
      rw [hload, heq2]
    · exact absurd hobs (by simp)

/-- C6 (code-bug evaluation): in `cyttsp_exit_bl_mode` the key `memcpy`
uses copy length `sizeof(bl_command)` = 11, so with caller-supplied keys
it writes destination indices 11, 12 and 13, which lie outside the
11-byte command buffer (valid indices 0..10), and reads source indices
8, 9 and 10, which lie outside the 8-byte `CY_NUM_BL_KEYS` key array. -/
theorem claim_C6_bl_keys_copy_overflow :
    bl_command.length = 11 ∧ CY_NUM_BL_KEYS = 8 ∧
    bl_keys_copy_dst_indices.filter (fun i => decide (bl_command.length ≤ i)) = [11, 12, 13] ∧
    bl_keys_copy_src_indices.filter (fun i => decide (CY_NUM_BL_KEYS ≤ i)) = [8, 9, 10] := by
  decide

/-- C3: decoding the concrete valid frame with 2 touches carrying track
IDs 3 and 9, coordinates (100, 200) z 50 and (400, 10) z 5, emits
exactly the two occupied updates, one empty update for each of the
other 14 slots in ascending order, and a single sync marker. -/
theorem claim_C3_frame_decode :
    (cyttsp_handle_tchdata env_frameC3 cyttsp_stActive).1 = 0 ∧
    (cyttsp_handle_tchdata env_frameC3 cyttsp_stActive).2.events =
      [.slotOccupied 3 100 200 50, .slotOccupied 9 400 10 5,
       .slotEmpty 0, .slotEmpty 1, .slotEmpty 2, .slotEmpty 4, .slotEmpty 5, .slotEmpty 6,
       .slotEmpty 7, .slotEmpty 8, .slotEmpty 10, .slotEmpty 11, .slotEmpty 12,
       .slotEmpty 13, .slotEmpty 14, .slotEmpty 15, .sync] := by
  decide

/-! Bridges between the bitwise macros of the source and the plain
arithmetic used by the spec-side decision table (register bytes are
below 256). -/

set_option maxRecDepth 10000 in
theorem GET_BOOTLOADERMODE_arith : ∀ x < 256, GET_BOOTLOADERMODE x = x / 16 % 2 := by
  decide

set_option maxRecDepth 10000 in
theorem IS_VALID_APP_arith : ∀ x < 256, IS_VALID_APP x = x % 2 := by
  decide

set_option maxRecDepth 10000 in
theorem GET_HSTMODE_arith : ∀ x < 256, GET_HSTMODE x = x / 16 % 8 := by
  decide

set_option maxRecDepth 10000 in
theorem IS_OPERATIONAL_ERR_arith : ∀ x < 256, IS_OPERATIONAL_ERR x = x % 64 := by
  decide

/-- C2: after a successful 16-byte bootloader status read,
`cyttsp_bl_app_valid` takes exactly the branch of the four-way decision
table of the specification: 0 (proceed to exit-bootloader) iff
bootloader bit and app-valid bit are set, 1 (skip to system-info) iff
bootloader bit clear with operational host-mode nibble and no
operational-error bits, and -ENODEV in every other combination. -/
theorem claim_C2_bl_decision_table (env : CyEnv) (st : CySt)
    (h : (cyttsp_load_bl_regs env st).1 = 0) :
    ((cyttsp_bl_app_valid env st).1 = 0 ↔
      spec_bl_decision (cyttsp_load_bl_regs env st).2.bl_file
        (cyttsp_load_bl_regs env st).2.bl_status = .exitBootloader) ∧
    ((cyttsp_bl_app_valid env st).1 = 1 ↔
      spec_bl_decision (cyttsp_load_bl_regs env st).2.bl_file
        (cyttsp_load_bl_regs env st).2.bl_status = .skipToSysinfo) ∧
    ((cyttsp_bl_app_valid env st).1 = -ENODEV ↔
      spec_bl_decision (cyttsp_load_bl_regs env st).2.bl_file
        (cyttsp_load_bl_regs env st).2.bl_status = .deviceNotReady) ∧
    (cyttsp_bl_app_valid env st).2 = (cyttsp_load_bl_regs env st).2 := by
  rcases cyttsp_load_bl_regs_spec env st with ⟨n, m, b1, b2, heq, hb1, hb2, hsign⟩
  have hfile : (cyttsp_load_bl_regs env st).2.bl_file < 256 := by rw [heq]; exact hb1
  have hstat : (cyttsp_load_bl_regs env st).2.bl_status < 256 := by rw [heq]; exact hb2
  have hnlt : ¬((cyttsp_load_bl_regs env st).1 < 0) := by omega
  have happ : cyttsp_bl_app_valid env st =
      (if GET_BOOTLOADERMODE (cyttsp_load_bl_regs env st).2.bl_status ≠ 0 then
        if IS_VALID_APP (cyttsp_load_bl_regs env st).2.bl_status ≠ 0 then
          ((0 : Int), (cyttsp_load_bl_regs env st).2)
        else (-ENODEV, (cyttsp_load_bl_regs env st).2)
      else if GET_HSTMODE (cyttsp_load_bl_regs env st).2.bl_file = CY_OPERATE_MODE then
        if IS_OPERATIONAL_ERR (cyttsp_load_bl_regs env st).2.bl_status = 0 then
          ((1 : Int), (cyttsp_load_bl_regs env st).2)
        else (-ENODEV, (cyttsp_load_bl_regs env st).2)
      else (-ENODEV, (cyttsp_load_bl_regs env st).2)) := by
    rw [cyttsp_bl_app_valid, if_neg hnlt]
  rw [happ, spec_bl_decision,
    GET_BOOTLOADERMODE_arith _ hstat, IS_VALID_APP_arith _ hstat,
    GET_HSTMODE_arith _ hfile, IS_OPERATIONAL_ERR_arith _ hstat]
  rcases Nat.mod_two_eq_zero_or_one ((cyttsp_load_bl_regs env st).2.bl_status / 16) with hbm | hbm <;>
    rw [hbm] <;>
    rcases Nat.mod_two_eq_zero_or_one (cyttsp_load_bl_regs env st).2.bl_status with hva | hva <;>
    rw [hva] <;>
    by_cases hhm : (cyttsp_load_bl_regs env st).2.bl_file / 16 % 8 = 0 <;>
    by_cases her : (cyttsp_load_bl_regs env st).2.bl_status % 64 = 0 <;>
    simp [hhm, her, CY_OPERATE_MODE, ENODEV]

/-- Witness for C2: a status block with bootloader-mode and app-valid
bits set (bl_status 0x11) takes the exit-bootloader branch. -/
theorem claim_C2_bl_decision_table_witness :
    (cyttsp_load_bl_regs env_bl_valid cyttsp_st0).1 = 0 ∧
    spec_bl_decision (cyttsp_load_bl_regs env_bl_valid cyttsp_st0).2.bl_file
      (cyttsp_load_bl_regs env_bl_valid cyttsp_st0).2.bl_status = .exitBootloader ∧
    (cyttsp_bl_app_valid env_bl_valid cyttsp_st0).1 = 0 :=
  ⟨by decide, by decide,
    ((claim_C2_bl_decision_table env_bl_valid cyttsp_st0 (by decide)).1).mpr (by decide)⟩

theorem cyttsp_suspend_active_eq (env : CyEnv) (st : CySt)
    (hc : env.pd.use_sleep ≠ 0 ∧ st.power_state = .CY_ACTIVE_STATE) :
    cyttsp_suspend env st =
      (if (ttsp_write_block_data env st CY_REG_BASE [env.pd.use_sleep % 256]).1 ≥ 0 then
        ((ttsp_write_block_data env st CY_REG_BASE [env.pd.use_sleep % 256]).1,
          { (ttsp_write_block_data env st CY_REG_BASE [env.pd.use_sleep % 256]).2 with
            power_state := .CY_SLEEP_STATE })
      else ((ttsp_write_block_data env st CY_REG_BASE [env.pd.use_sleep % 256]).1,
        (ttsp_write_block_data env st CY_REG_BASE [env.pd.use_sleep % 256]).2)) := by
  rw [cyttsp_suspend, if_pos hc]

/-- C8: `cyttsp_suspend` performs its bus write only when sleep mode is
configured and the power state is Active; on write success the power
state becomes Sleep, on write failure the error is returned with the
power state still Active, and in every other configuration it is a
no-op returning 0 with the state untouched. -/
theorem claim_C8_suspend_power_transitions (env : CyEnv) (st : CySt) :
    ((env.pd.use_sleep ≠ 0 ∧ st.power_state = .CY_ACTIVE_STATE) →
      (((ttsp_write_block_data env st CY_REG_BASE [env.pd.use_sleep % 256]).1 = 0 →
          cyttsp_suspend env st =
            (0, { (ttsp_write_block_data env st CY_REG_BASE [env.pd.use_sleep % 256]).2 with
                  power_state := .CY_SLEEP_STATE })) ∧
        ((ttsp_write_block_data env st CY_REG_BASE [env.pd.use_sleep % 256]).1 < 0 →
          cyttsp_suspend env st =
            ((ttsp_write_block_data env st CY_REG_BASE [env.pd.use_sleep % 256]).1,
              (ttsp_write_block_data env st CY_REG_BASE [env.pd.use_sleep % 256]).2) ∧
          (ttsp_write_block_data env st CY_REG_BASE [env.pd.use_sleep % 256]).2.power_state =
            .CY_ACTIVE_STATE))) ∧
    (¬(env.pd.use_sleep ≠ 0 ∧ st.power_state = .CY_ACTIVE_STATE) →
      cyttsp_suspend env st = (0, st)) := by
  constructor
  · intro hc
    constructor
    · intro hw0
      rw [cyttsp_suspend_active_eq env st hc, if_pos (by omega), hw0]
    · intro hwneg
      rw [cyttsp_suspend_active_eq env st hc, if_neg (by omega)]
      refine ⟨rfl, ?_⟩
      rcases ttsp_write_block_data_spec env st CY_REG_BASE [env.pd.use_sleep % 256] with
        ⟨n, m, hsp⟩
      rcases hsp with ⟨hw0, _⟩ | ⟨_, hw2⟩
      · omega
      · rw [hw2]; exact hc.2
  · intro hc
    rw [cyttsp_suspend, if_neg hc]

/-- Witness for C8: with sleep configured, an Active session and a
healthy bus, suspend writes once and the session reaches Sleep. -/
theorem claim_C8_suspend_power_transitions_witness :
    (env_ok_zeros.pd.use_sleep ≠ 0 ∧ cyttsp_stActive.power_state = .CY_ACTIVE_STATE) ∧
    (ttsp_write_block_data env_ok_zeros cyttsp_stActive CY_REG_BASE
      [env_ok_zeros.pd.use_sleep % 256]).1 = 0 ∧
    (cyttsp_suspend env_ok_zeros cyttsp_stActive).2.power_state = .CY_SLEEP_STATE ∧
    (cyttsp_suspend env_ok_zeros cyttsp_stActive).1 = 0 := by
  have hc : env_ok_zeros.pd.use_sleep ≠ 0 ∧
      cyttsp_stActive.power_state = .CY_ACTIVE_STATE := by decide
  have hw : (ttsp_write_block_data env_ok_zeros cyttsp_stActive CY_REG_BASE
      [env_ok_zeros.pd.use_sleep % 256]).1 = 0 := by decide
  have hmain := ((claim_C8_suspend_power_transitions env_ok_zeros cyttsp_stActive).1 hc).1 hw
  exact ⟨hc, hw, by rw [hmain], by rw [hmain]⟩

/-- C10: when the suspend write happens and succeeds, the single byte
written at `CY_REG_BASE` is the numeric `use_sleep` value itself; in
particular `use_sleep = 1` writes 0x01, which is neither
`CY_DEEP_SLEEP_MODE` (0x02) nor `CY_LOW_POWER_MODE` (0x04). -/
theorem claim_C10_suspend_writes_flag_byte (env : CyEnv) (st : CySt)
    (h1 : env.pd.use_sleep ≠ 0) (h2 : env.pd.use_sleep < 256)
    (h3 : st.power_state = .CY_ACTIVE_STATE)
    (h4 : (cyttsp_suspend env st).1 = 0) :
    (cyttsp_suspend env st).2.wlog = st.wlog ++ [(CY_REG_BASE, [env.pd.use_sleep])] ∧
    (env.pd.use_sleep = 1 →
      (cyttsp_suspend env st).2.wlog = st.wlog ++ [(CY_REG_BASE, [1])] ∧
      (1 : Nat) ≠ CY_DEEP_SLEEP_MODE ∧ (1 : Nat) ≠ CY_LOW_POWER_MODE) := by
  have hmod : env.pd.use_sleep % 256 = env.pd.use_sleep := Nat.mod_eq_of_lt h2
  have hsus := cyttsp_suspend_active_eq env st ⟨h1, h3⟩
  rcases ttsp_write_block_data_spec env st CY_REG_BASE [env.pd.use_sleep % 256] with
    ⟨n, m, hsp⟩
  rcases hsp with ⟨hw0, hw2⟩ | ⟨hwneg, hw2⟩
  · have hfin : (cyttsp_suspend env st).2.wlog = st.wlog ++ [(CY_REG_BASE, [env.pd.use_sleep])] := by
      rw [hsus, if_pos (by omega), hw2]
      simp [hmod]
    refine ⟨hfin, fun h1eq => ⟨?_, by norm_num [CY_DEEP_SLEEP_MODE], by norm_num [CY_LOW_POWER_MODE]⟩⟩
    rw [hfin, h1eq]
  · exfalso
    rw [hsus, if_neg (by omega)] at h4
    omega

/-- Witness for C10: use_sleep 1, Active session, healthy bus: the
logged write is the byte 0x01 at register 0x00. -/
theorem claim_C10_suspend_writes_flag_byte_witness :
    (cyttsp_suspend env_ok_zeros cyttsp_stActive).1 = 0 ∧
    (cyttsp_suspend env_ok_zeros cyttsp_stActive).2.wlog = [(CY_REG_BASE, [1])] := by
  have h4 : (cyttsp_suspend env_ok_zeros cyttsp_stActive).1 = 0 := by decide
  have hmain := claim_C10_suspend_writes_flag_byte env_ok_zeros cyttsp_stActive
    (by decide) (by decide) (by decide) h4
  exact ⟨h4, by rw [(hmain.2 (by decide)).1]; rfl⟩

/-- C9: when the initial touch-frame read fails, the handler returns 0
with no handshake write, no events and no state change beyond the read
and delay counters, and the interrupt handler triggers no recovery. -/
theorem claim_C9_tchdata_read_failure (env : CyEnv) (st : CySt)
    (h : (ttsp_read_block_data env st CY_REG_BASE 32).1 ≠ 0) :
    (∃ n m, cyttsp_handle_tchdata env st = (0, { st with reads := n, delays := m })) ∧
    (st.power_state ≠ .CY_BL_STATE →
      ∃ n m, cyttsp_irq env st = { st with reads := n, delays := m }) := by
  rcases ttsp_read_block_data_spec env st CY_REG_BASE 32 with ⟨n, m, heq, _⟩
  have hhandle : cyttsp_handle_tchdata env st = (0, { st with reads := n, delays := m }) := by
    simp only [cyttsp_handle_tchdata]
    rw [if_pos h, heq]
  refine ⟨⟨n, m, hhandle⟩, fun hbl => ⟨n, m, ?_⟩⟩
  rw [cyttsp_irq, if_neg hbl]
  simp only [hhandle]
  norm_num

/-- Witness for C9: a dead bus and an Active session: the handler
returns 0 leaving power state, events and write log untouched. -/
theorem claim_C9_tchdata_read_failure_witness :
    (ttsp_read_block_data env_all_fail cyttsp_stActive CY_REG_BASE 32).1 ≠ 0 ∧
    (cyttsp_handle_tchdata env_all_fail cyttsp_stActive).1 = 0 ∧
    (cyttsp_handle_tchdata env_all_fail cyttsp_stActive).2.events = [] ∧
    (cyttsp_handle_tchdata env_all_fail cyttsp_stActive).2.power_state = .CY_ACTIVE_STATE ∧
    (cyttsp_irq env_all_fail cyttsp_stActive).power_state = .CY_ACTIVE_STATE ∧
    (cyttsp_irq env_all_fail cyttsp_stActive).wlog = [] := by
  have h : (ttsp_read_block_data env_all_fail cyttsp_stActive CY_REG_BASE 32).1 ≠ 0 := by decide
  have hmain := claim_C9_tchdata_read_failure env_all_fail cyttsp_stActive h
  rcases hmain with ⟨⟨n, m, hh⟩, hirq⟩
  rcases hirq (by decide) with ⟨n2, m2, hi⟩
  exact ⟨h, by rw [hh], by rw [hh]; rfl, by rw [hh]; rfl,
    by rw [hi]; rfl, by rw [hi]; rfl⟩

theorem bl_poll_state_shift (env : CyEnv) (st : CySt) :
    ∀ n, bl_poll_state env (cyttsp_bl_poll_once env st).2 n = bl_poll_state env st (n + 1) := by
  intro n
  induction n with
  | zero => rfl
  | succ k ih =>
    show (cyttsp_bl_poll_once env (bl_poll_state env (cyttsp_bl_poll_once env st).2 k)).2 =
      bl_poll_state env st (k + 1 + 1)
    rw [ih]
    rfl

theorem bl_cleared_at_shift (env : CyEnv) (st : CySt) (n : Nat) :
    bl_cleared_at env (cyttsp_bl_poll_once env st).2 n ↔ bl_cleared_at env st (n + 1) := by
  unfold bl_cleared_at
  rw [bl_poll_state_shift]

theorem cyttsp_exit_bl_poll_characterization (env : CyEnv) :
    ∀ fuel tries st, CY_DELAY_MAX + 1 ≤ fuel + tries →
      (((cyttsp_exit_bl_poll env fuel tries st).2.1 < CY_DELAY_MAX) ↔
        (∃ n, tries + n < CY_DELAY_MAX ∧ bl_cleared_at env st n)) ∧
      ((cyttsp_exit_bl_poll env fuel tries st).2.1 < CY_DELAY_MAX →
        (cyttsp_exit_bl_poll env fuel tries st).1 = 0) := by
  intro fuel
  induction fuel with
  | zero =>
    intro tries st hge
    constructor
    · rw [show cyttsp_exit_bl_poll env 0 tries st = (-1, tries, st) from rfl]
      constructor
      · intro hlt
        exact absurd hlt (by simp only; omega)
      · rintro ⟨n, hn, _⟩
        omega
    · rw [show cyttsp_exit_bl_poll env 0 tries st = (-1, tries, st) from rfl]
      intro hlt
      exact absurd hlt (by simp only; omega)
  | succ f ih =>
    intro tries st hge
    by_cases hcl : (cyttsp_bl_poll_once env st).1 = 0 ∧
        GET_BOOTLOADERMODE (cyttsp_bl_poll_once env st).2.bl_status = 0
    · have hstep : cyttsp_exit_bl_poll env (f + 1) tries st =
          ((cyttsp_bl_poll_once env st).1, tries, (cyttsp_bl_poll_once env st).2) := by
        rw [cyttsp_exit_bl_poll, if_pos hcl]
      rw [hstep]
      constructor
      · constructor
        · intro hlt
          exact ⟨0, by simpa using hlt, hcl⟩
        · rintro ⟨n, hn, _⟩
          simp only
          omega
      · intro _
        exact hcl.1
    · by_cases ht : tries < CY_DELAY_MAX
      · have hstep : cyttsp_exit_bl_poll env (f + 1) tries st =
            cyttsp_exit_bl_poll env f (tries + 1) (cyttsp_bl_poll_once env st).2 := by
          rw [cyttsp_exit_bl_poll, if_neg hcl, if_pos ht]
        rw [hstep]
        have hmain := ih (tries + 1) (cyttsp_bl_poll_once env st).2 (by omega)
        refine ⟨?_, hmain.2⟩
        rw [hmain.1]
        constructor
        · rintro ⟨n, hn, hclr⟩
          refine ⟨n + 1, by omega, ?_⟩
          exact (bl_cleared_at_shift env st n).mp hclr
        · rintro ⟨n, hn, hclr⟩
          cases n with
          | zero => exact absurd hclr hcl
          | succ k =>
            refine ⟨k, by omega, ?_⟩
            exact (bl_cleared_at_shift env st k).mpr hclr
      · have hstep : cyttsp_exit_bl_poll env (f + 1) tries st =
            ((cyttsp_bl_poll_once env st).1, tries + 1, (cyttsp_bl_poll_once env st).2) := by
          rw [cyttsp_exit_bl_poll, if_neg hcl, if_neg ht]
        rw [hstep]
        constructor
        · constructor
          · intro hlt
            exact absurd hlt (by simp only; omega)
          · rintro ⟨n, hn, _⟩
            omega
        · intro hlt
          exact absurd hlt (by simp only; omega)

/-- C7: after the exit-bootloader command has been written successfully,
`cyttsp_exit_bl_mode` returns 0 iff some poll among the first
`CY_DELAY_MAX` (25) polls of the bootloader block reads back
successfully with the bootloader-mode bit clear, and returns -ENODEV
when that poll budget is exhausted. -/
theorem claim_C7_exit_bl_poll_budget (env : CyEnv) (st : CySt)
    (hw : 0 ≤ (ttsp_write_block_data env st CY_REG_BASE (bl_cmd_bytes env.pd.bl_keys)).1) :
    ((cyttsp_exit_bl_mode env st).1 = 0 ↔
      ∃ n, n < CY_DELAY_MAX ∧
        bl_cleared_at env
          (ttsp_write_block_data env st CY_REG_BASE (bl_cmd_bytes env.pd.bl_keys)).2 n) ∧
    ((cyttsp_exit_bl_mode env st).1 = 0 ∨ (cyttsp_exit_bl_mode env st).1 = -ENODEV) := by
  have hnlt : ¬((ttsp_write_block_data env st CY_REG_BASE (bl_cmd_bytes env.pd.bl_keys)).1 < 0) := by
    omega
  have hmode : cyttsp_exit_bl_mode env st =
      (if (cyttsp_exit_bl_poll env (CY_DELAY_MAX + 2) 0
            (ttsp_write_block_data env st CY_REG_BASE (bl_cmd_bytes env.pd.bl_keys)).2).2.1 ≥
          CY_DELAY_MAX then
        (-ENODEV,
          (cyttsp_exit_bl_poll env (CY_DELAY_MAX + 2) 0
            (ttsp_write_block_data env st CY_REG_BASE (bl_cmd_bytes env.pd.bl_keys)).2).2.2)
      else
        ((cyttsp_exit_bl_poll env (CY_DELAY_MAX + 2) 0
            (ttsp_write_block_data env st CY_REG_BASE (bl_cmd_bytes env.pd.bl_keys)).2).1,
          (cyttsp_exit_bl_poll env (CY_DELAY_MAX + 2) 0
            (ttsp_write_block_data env st CY_REG_BASE (bl_cmd_bytes env.pd.bl_keys)).2).2.2)) := by
    rw [cyttsp_exit_bl_mode, if_neg hnlt]
  have hchar := cyttsp_exit_bl_poll_characterization env (CY_DELAY_MAX + 2) 0
    (ttsp_write_block_data env st CY_REG_BASE (bl_cmd_bytes env.pd.bl_keys)).2 (by omega)
  simp only [Nat.zero_add] at hchar
  by_cases hq : (cyttsp_exit_bl_poll env (CY_DELAY_MAX + 2) 0
      (ttsp_write_block_data env st CY_REG_BASE (bl_cmd_bytes env.pd.bl_keys)).2).2.1 <
      CY_DELAY_MAX
  · have hr0 := hchar.2 hq
    rw [hmode, if_neg (by omega)]
    refine ⟨⟨fun _ => hchar.1.mp hq, fun _ => hr0⟩, Or.inl hr0⟩
  · rw [hmode, if_pos (by omega)]
    constructor
    · constructor
      · intro h0
        exact absurd h0 (by norm_num [ENODEV])
      · intro hex
        exact absurd (hchar.1.mpr hex) hq
    · exact Or.inr rfl

/-- Witness for C7: healthy bus, cleared status on the first poll: the
command write succeeds and exit-bootloader returns 0. -/
theorem claim_C7_exit_bl_poll_budget_witness :
    0 ≤ (ttsp_write_block_data env_ok_zeros cyttsp_st0 CY_REG_BASE
      (bl_cmd_bytes env_ok_zeros.pd.bl_keys)).1 ∧
    (cyttsp_exit_bl_mode env_ok_zeros cyttsp_st0).1 = 0 := by
  have hw : 0 ≤ (ttsp_write_block_data env_ok_zeros cyttsp_st0 CY_REG_BASE
      (bl_cmd_bytes env_ok_zeros.pd.bl_keys)).1 := by decide
  exact ⟨hw, (claim_C7_exit_bl_poll_budget env_ok_zeros cyttsp_st0 hw).1.mpr
    ⟨0, by decide, by decide⟩⟩

theorem obsPreserved_trans {a b c : CySt} (h1 : obsPreserved a b) (h2 : obsPreserved b c) :
    obsPreserved a c :=
  ⟨h2.1.trans h1.1, h2.2.trans h1.2⟩

theorem ttsp_read_block_data_obs (env : CyEnv) (st : CySt) (c l : Nat) :
    obsPreserved st (ttsp_read_block_data env st c l).2.2 := by
  rcases ttsp_read_block_data_spec env st c l with ⟨n, m, heq, _⟩
  rw [heq]
  exact ⟨rfl, rfl⟩

theorem ttsp_read_block_data_sign (env : CyEnv) (st : CySt) (c l : Nat) :
    (ttsp_read_block_data env st c l).1 ≤ 0 := by
  rcases ttsp_read_block_data_spec env st c l with ⟨n, m, _, hres⟩
  rcases hres with ⟨h0, _⟩ | ⟨hneg, _⟩ <;> omega

theorem ttsp_write_block_data_obs (env : CyEnv) (st : CySt) (c : Nat) (d : List Nat) :
    obsPreserved st (ttsp_write_block_data env st c d).2 := by
  rcases ttsp_write_block_data_spec env st c d with ⟨n, m, hres⟩
  rcases hres with ⟨_, heq⟩ | ⟨_, heq⟩ <;> rw [heq] <;> exact ⟨rfl, rfl⟩

theorem ttsp_write_block_data_sign (env : CyEnv) (st : CySt) (c : Nat) (d : List Nat) :
    (ttsp_write_block_data env st c d).1 ≤ 0 := by
  rcases ttsp_write_block_data_spec env st c d with ⟨n, m, hres⟩
  rcases hres with ⟨h0, _⟩ | ⟨hneg, _⟩ <;> omega

theorem cyttsp_load_bl_regs_obs (env : CyEnv) (st : CySt) :
    obsPreserved st (cyttsp_load_bl_regs env st).2 := by
  rcases cyttsp_load_bl_regs_spec env st with ⟨n, m, b1, b2, heq, _, _, _⟩
  rw [heq]
  exact ⟨rfl, rfl⟩

theorem cyttsp_load_bl_regs_sign (env : CyEnv) (st : CySt) :
    (cyttsp_load_bl_regs env st).1 ≤ 0 := by
  rcases cyttsp_load_bl_regs_spec env st with ⟨n, m, b1, b2, _, _, _, hres⟩
  rcases hres with h0 | hneg <;> omega

theorem cyttsp_bl_poll_once_obs (env : CyEnv) (st : CySt) :
    obsPreserved st (cyttsp_bl_poll_once env st).2 := by
  have h1 : obsPreserved st (msleep st) := ⟨rfl, rfl⟩
  exact obsPreserved_trans h1 (cyttsp_load_bl_regs_obs env (msleep st))

theorem cyttsp_exit_bl_poll_obs (env : CyEnv) :
    ∀ fuel tries st, obsPreserved st (cyttsp_exit_bl_poll env fuel tries st).2.2 := by
  intro fuel
  induction fuel with
  | zero => intro tries st; exact ⟨rfl, rfl⟩
  | succ f ih =>
    intro tries st
    by_cases hcl : (cyttsp_bl_poll_once env st).1 = 0 ∧
        GET_BOOTLOADERMODE (cyttsp_bl_poll_once env st).2.bl_status = 0
    · rw [cyttsp_exit_bl_poll, if_pos hcl]
      exact cyttsp_bl_poll_once_obs env st
    · by_cases ht : tries < CY_DELAY_MAX
      · rw [cyttsp_exit_bl_poll, if_neg hcl, if_pos ht]
        exact obsPreserved_trans (cyttsp_bl_poll_once_obs env st)
          (ih (tries + 1) (cyttsp_bl_poll_once env st).2)
      · rw [cyttsp_exit_bl_poll, if_neg hcl, if_neg ht]
        exact cyttsp_bl_poll_once_obs env st

theorem cyttsp_exit_bl_poll_sign (env : CyEnv) :
    ∀ fuel tries st, (cyttsp_exit_bl_poll env fuel tries st).1 ≤ 0 := by
  intro fuel
  induction fuel with
  | zero => intro tries st; norm_num [cyttsp_exit_bl_poll]
  | succ f ih =>
    intro tries st
    by_cases hcl : (cyttsp_bl_poll_once env st).1 = 0 ∧
        GET_BOOTLOADERMODE (cyttsp_bl_poll_once env st).2.bl_status = 0
    · rw [cyttsp_exit_bl_poll, if_pos hcl]
      exact le_of_eq hcl.1
    · by_cases ht : tries < CY_DELAY_MAX
      · rw [cyttsp_exit_bl_poll, if_neg hcl, if_pos ht]
        exact ih (tries + 1) (cyttsp_bl_poll_once env st).2
      · rw [cyttsp_exit_bl_poll, if_neg hcl, if_neg ht]
        exact cyttsp_load_bl_regs_sign env (msleep st)

theorem cyttsp_exit_bl_mode_obs (env : CyEnv) (st : CySt) :
    obsPreserved st (cyttsp_exit_bl_mode env st).2 := by
  by_cases hw : (ttsp_write_block_data env st CY_REG_BASE (bl_cmd_bytes env.pd.bl_keys)).1 < 0
  · rw [cyttsp_exit_bl_mode, if_pos hw]
    exact ttsp_write_block_data_obs env st CY_REG_BASE (bl_cmd_bytes env.pd.bl_keys)
  · rw [cyttsp_exit_bl_mode, if_neg hw]
    have hobs := obsPreserved_trans
      (ttsp_write_block_data_obs env st CY_REG_BASE (bl_cmd_bytes env.pd.bl_keys))
      (cyttsp_exit_bl_poll_obs env (CY_DELAY_MAX + 2) 0
        (ttsp_write_block_data env st CY_REG_BASE (bl_cmd_bytes env.pd.bl_keys)).2)
    by_cases hq : (cyttsp_exit_bl_poll env (CY_DELAY_MAX + 2) 0
        (ttsp_write_block_data env st CY_REG_BASE (bl_cmd_bytes env.pd.bl_keys)).2).2.1 ≥
        CY_DELAY_MAX
    · rw [if_pos hq]; exact hobs
    · rw [if_neg hq]; exact hobs

theorem cyttsp_exit_bl_mode_sign (env : CyEnv) (st : CySt) :
    (cyttsp_exit_bl_mode env st).1 ≤ 0 := by
  by_cases hw : (ttsp_write_block_data env st CY_REG_BASE (bl_cmd_bytes env.pd.bl_keys)).1 < 0
  · rw [cyttsp_exit_bl_mode, if_pos hw]
    omega
  · rw [cyttsp_exit_bl_mode, if_neg hw]
    by_cases hq : (cyttsp_exit_bl_poll env (CY_DELAY_MAX + 2) 0
        (ttsp_write_block_data env st CY_REG_BASE (bl_cmd_bytes env.pd.bl_keys)).2).2.1 ≥
        CY_DELAY_MAX
    · rw [if_pos hq]; norm_num [ENODEV]
    · rw [if_neg hq]
      exact cyttsp_exit_bl_poll_sign env (CY_DELAY_MAX + 2) 0
        (ttsp_write_block_data env st CY_REG_BASE (bl_cmd_bytes env.pd.bl_keys)).2

theorem cyttsp_soft_reset_obs (env : CyEnv) (st : CySt) :
    obsPreserved st (cyttsp_soft_reset env st).2 := by
  by_cases hw : (ttsp_write_block_data env st CY_REG_BASE [CY_SOFT_RESET_MODE]).1 < 0
  · rw [cyttsp_soft_reset, if_pos hw]
    exact ttsp_write_block_data_obs env st CY_REG_BASE [CY_SOFT_RESET_MODE]
  · rw [cyttsp_soft_reset, if_neg hw]
    exact ttsp_write_block_data_obs env st CY_REG_BASE [CY_SOFT_RESET_MODE]

theorem cyttsp_soft_reset_cases (env : CyEnv) (st : CySt) :
    (cyttsp_soft_reset env st).1 < 0 ∨ (cyttsp_soft_reset env st).1 = 0 ∨
    (cyttsp_soft_reset env st).1 = 1 := by
  by_cases hw : (ttsp_write_block_data env st CY_REG_BASE [CY_SOFT_RESET_MODE]).1 < 0
  · rw [cyttsp_soft_reset, if_pos hw]
    exact Or.inl hw
  · rw [cyttsp_soft_reset, if_neg hw]
    cases env.blReady <;> simp

theorem cyttsp_act_dist_setup_obs (env : CyEnv) (st : CySt) :
    obsPreserved st (cyttsp_act_dist_setup env st).2 :=
  ttsp_write_block_data_obs env st CY_REG_ACT_DIST [env.pd.act_dist % 256]

theorem cyttsp_act_dist_setup_sign (env : CyEnv) (st : CySt) :
    (cyttsp_act_dist_setup env st).1 ≤ 0 :=
  ttsp_write_block_data_sign env st CY_REG_ACT_DIST [env.pd.act_dist % 256]

theorem cyttsp_set_sysinfo_regs_obs (env : CyEnv) (st : CySt) :
    obsPreserved st (cyttsp_set_sysinfo_regs env st).2 := by
  by_cases hc : env.pd.act_intrvl ≠ CY_ACT_INTRVL_DFLT ∨ env.pd.tch_tmout ≠ CY_TCH_TMOUT_DFLT ∨
      env.pd.lp_intrvl ≠ CY_LP_INTRVL_DFLT
  · rw [cyttsp_set_sysinfo_regs, if_pos hc]
    have h1 := ttsp_write_block_data_obs env st CY_REG_ACT_INTRVL
      [env.pd.act_intrvl % 256, env.pd.tch_tmout % 256, env.pd.lp_intrvl % 256]
    exact obsPreserved_trans h1 ⟨rfl, rfl⟩
  · rw [cyttsp_set_sysinfo_regs, if_neg hc]
    exact ⟨rfl, rfl⟩

theorem cyttsp_set_sysinfo_regs_sign (env : CyEnv) (st : CySt) :
    (cyttsp_set_sysinfo_regs env st).1 ≤ 0 := by
  by_cases hc : env.pd.act_intrvl ≠ CY_ACT_INTRVL_DFLT ∨ env.pd.tch_tmout ≠ CY_TCH_TMOUT_DFLT ∨
      env.pd.lp_intrvl ≠ CY_LP_INTRVL_DFLT
  · rw [cyttsp_set_sysinfo_regs, if_pos hc]
    exact ttsp_write_block_data_sign env st CY_REG_ACT_INTRVL
      [env.pd.act_intrvl % 256, env.pd.tch_tmout % 256, env.pd.lp_intrvl % 256]
  · rw [cyttsp_set_sysinfo_regs, if_neg hc]

theorem cyttsp_op_poll_obs (env : CyEnv) :
    ∀ fuel tries st, obsPreserved st (cyttsp_op_poll env fuel tries st).2.2 := by
  intro fuel
  induction fuel with
  | zero => intro tries st; exact ⟨rfl, rfl⟩
  | succ f ih =>
    intro tries st
    by_cases hcl : (cyttsp_op_poll_once env st).1 = 0 ∧ op_act_dist_ok (cyttsp_op_poll_once env st).2.1
    · rw [cyttsp_op_poll, if_pos hcl]
      exact ttsp_read_block_data_obs env st CY_REG_BASE 32
    · by_cases ht : tries < CY_DELAY_MAX
      · rw [cyttsp_op_poll, if_neg hcl, if_pos ht]
        exact obsPreserved_trans (ttsp_read_block_data_obs env st CY_REG_BASE 32)
          (ih (tries + 1) (cyttsp_op_poll_once env st).2.2)
      · rw [cyttsp_op_poll, if_neg hcl, if_neg ht]
        exact ttsp_read_block_data_obs env st CY_REG_BASE 32

theorem cyttsp_op_poll_sign (env : CyEnv) :
    ∀ fuel tries st, (cyttsp_op_poll env fuel tries st).1 ≤ 0 := by
  intro fuel
  induction fuel with
  | zero => intro tries st; norm_num [cyttsp_op_poll]
  | succ f ih =>
    intro tries st
    by_cases hcl : (cyttsp_op_poll_once env st).1 = 0 ∧ op_act_dist_ok (cyttsp_op_poll_once env st).2.1
    · rw [cyttsp_op_poll, if_pos hcl]
      exact le_of_eq hcl.1
    · by_cases ht : tries < CY_DELAY_MAX
      · rw [cyttsp_op_poll, if_neg hcl, if_pos ht]
        exact ih (tries + 1) (cyttsp_op_poll_once env st).2.2
      · rw [cyttsp_op_poll, if_neg hcl, if_neg ht]
        exact ttsp_read_block_data_sign env st CY_REG_BASE 32

theorem cyttsp_set_operational_mode_obs (env : CyEnv) (st : CySt) :
    obsPreserved st (cyttsp_set_operational_mode env st).2 := by
  by_cases hw : (ttsp_write_block_data env st CY_REG_BASE [CY_OPERATE_MODE]).1 < 0
  · rw [cyttsp_set_operational_mode, if_pos hw]
    exact ttsp_write_block_data_obs env st CY_REG_BASE [CY_OPERATE_MODE]
  · rw [cyttsp_set_operational_mode, if_neg hw]
    have hobs := obsPreserved_trans
      (ttsp_write_block_data_obs env st CY_REG_BASE [CY_OPERATE_MODE])
      (cyttsp_op_poll_obs env (CY_DELAY_MAX + 2) 0
        (ttsp_write_block_data env st CY_REG_BASE [CY_OPERATE_MODE]).2)
    by_cases hq : (cyttsp_op_poll env (CY_DELAY_MAX + 2) 0
        (ttsp_write_block_data env st CY_REG_BASE [CY_OPERATE_MODE]).2).2.1 ≥ CY_DELAY_MAX
    · rw [if_pos hq]; exact hobs
    · rw [if_neg hq]; exact hobs

theorem cyttsp_set_operational_mode_sign (env : CyEnv) (st : CySt) :
    (cyttsp_set_operational_mode env st).1 ≤ 0 := by
  by_cases hw : (ttsp_write_block_data env st CY_REG_BASE [CY_OPERATE_MODE]).1 < 0
  · rw [cyttsp_set_operational_mode, if_pos hw]
    omega
  · rw [cyttsp_set_operational_mode, if_neg hw]
    by_cases hq : (cyttsp_op_poll env (CY_DELAY_MAX + 2) 0
        (ttsp_write_block_data env st CY_REG_BASE [CY_OPERATE_MODE]).2).2.1 ≥ CY_DELAY_MAX
    · rw [if_pos hq]; norm_num [EAGAIN]
    · rw [if_neg hq]
      exact cyttsp_op_poll_sign env (CY_DELAY_MAX + 2) 0
        (ttsp_write_block_data env st CY_REG_BASE [CY_OPERATE_MODE]).2

theorem cyttsp_sysinfo_poll_once_obs (env : CyEnv) (st : CySt) :
    obsPreserved st (cyttsp_sysinfo_poll_once env st).2 := by
  rcases hE : ttsp_read_block_data env (msleep st) CY_REG_BASE 32 with ⟨r, obs, st1⟩
  have hspec := ttsp_read_block_data_spec env (msleep st) CY_REG_BASE 32
  rw [hE] at hspec
  rcases hspec with ⟨n, m, heq, _⟩
  have heq2 : st1 = { msleep st with reads := n, delays := m } := heq
  cases obs with
  | none =>
    have hload : cyttsp_sysinfo_poll_once env st = (r, st1) := by
      simp only [cyttsp_sysinfo_poll_once, hE]
    rw [hload, heq2]
    exact ⟨rfl, rfl⟩
  | some bs =>
    have hload : cyttsp_sysinfo_poll_once env st =
        (r, { st1 with tts_verh := byteAt bs 17, tts_verl := byteAt bs 18 }) := by
      simp only [cyttsp_sysinfo_poll_once, hE]
    rw [hload, heq2]
    exact ⟨rfl, rfl⟩

theorem cyttsp_sysinfo_poll_once_sign (env : CyEnv) (st : CySt) :
    (cyttsp_sysinfo_poll_once env st).1 ≤ 0 := by
  rcases hE : ttsp_read_block_data env (msleep st) CY_REG_BASE 32 with ⟨r, obs, st1⟩
  have hsign := ttsp_read_block_data_sign env (msleep st) CY_REG_BASE 32
  rw [hE] at hsign
  cases obs with
  | none =>
    have hload : cyttsp_sysinfo_poll_once env st = (r, st1) := by
      simp only [cyttsp_sysinfo_poll_once, hE]
    rw [hload]
    exact hsign
  | some bs =>
    have hload : cyttsp_sysinfo_poll_once env st =
        (r, { st1 with tts_verh := byteAt bs 17, tts_verl := byteAt bs 18 }) := by
      simp only [cyttsp_sysinfo_poll_once, hE]
    rw [hload]
    exact hsign

theorem cyttsp_sysinfo_poll_obs (env : CyEnv) :
    ∀ fuel tries st, obsPreserved st (cyttsp_sysinfo_poll env fuel tries st).2.2 := by
  intro fuel
  induction fuel with
  | zero => intro tries st; exact ⟨rfl, rfl⟩
  | succ f ih =>
    intro tries st
    by_cases hcl : (cyttsp_sysinfo_poll_once env st).1 = 0 ∧
        ¬((cyttsp_sysinfo_poll_once env st).2.tts_verh = 0 ∧
          (cyttsp_sysinfo_poll_once env st).2.tts_verl = 0)
    · rw [cyttsp_sysinfo_poll, if_pos hcl]
      exact cyttsp_sysinfo_poll_once_obs env st
    · by_cases ht : tries < CY_DELAY_MAX
      · rw [cyttsp_sysinfo_poll, if_neg hcl, if_pos ht]
        exact obsPreserved_trans (cyttsp_sysinfo_poll_once_obs env st)
          (ih (tries + 1) (cyttsp_sysinfo_poll_once env st).2)
      · rw [cyttsp_sysinfo_poll, if_neg hcl, if_neg ht]
        exact cyttsp_sysinfo_poll_once_obs env st

theorem cyttsp_sysinfo_poll_sign (env : CyEnv) :
    ∀ fuel tries st, (cyttsp_sysinfo_poll env fuel tries st).1 ≤ 0 := by
  intro fuel
  induction fuel with
  | zero => intro tries st; norm_num [cyttsp_sysinfo_poll]
  | succ f ih =>
    intro tries st
    by_cases hcl : (cyttsp_sysinfo_poll_once env st).1 = 0 ∧
        ¬((cyttsp_sysinfo_poll_once env st).2.tts_verh = 0 ∧
          (cyttsp_sysinfo_poll_once env st).2.tts_verl = 0)
    · rw [cyttsp_sysinfo_poll, if_pos hcl]
      exact le_of_eq hcl.1
    · by_cases ht : tries < CY_DELAY_MAX
      · rw [cyttsp_sysinfo_poll, if_neg hcl, if_pos ht]
        exact ih (tries + 1) (cyttsp_sysinfo_poll_once env st).2
      · rw [cyttsp_sysinfo_poll, if_neg hcl, if_neg ht]
        exact cyttsp_sysinfo_poll_once_sign env st

theorem cyttsp_set_sysinfo_mode_obs (env : CyEnv) (st : CySt) :
    obsPreserved st (cyttsp_set_sysinfo_mode env st).2 := by
  have h0 : obsPreserved st { st with tts_verh := 0, tts_verl := 0 } := ⟨rfl, rfl⟩
  by_cases hw : (ttsp_write_block_data env { st with tts_verh := 0, tts_verl := 0 }
      CY_REG_BASE [CY_SYSINFO_MODE]).1 < 0
  · rw [cyttsp_set_sysinfo_mode, if_pos hw]
    exact obsPreserved_trans h0 (ttsp_write_block_data_obs env _ CY_REG_BASE [CY_SYSINFO_MODE])
  · rw [cyttsp_set_sysinfo_mode, if_neg hw]
    have hobs := obsPreserved_trans h0 (obsPreserved_trans
      (ttsp_write_block_data_obs env { st with tts_verh := 0, tts_verl := 0 }
        CY_REG_BASE [CY_SYSINFO_MODE])
      (cyttsp_sysinfo_poll_obs env (CY_DELAY_MAX + 2) 0
        (ttsp_write_block_data env { st with tts_verh := 0, tts_verl := 0 }
          CY_REG_BASE [CY_SYSINFO_MODE]).2))
    by_cases hq : (cyttsp_sysinfo_poll env (CY_DELAY_MAX + 2) 0
        (ttsp_write_block_data env { st with tts_verh := 0, tts_verl := 0 }
          CY_REG_BASE [CY_SYSINFO_MODE]).2).2.1 ≥ CY_DELAY_MAX
    · rw [if_pos hq]; exact hobs
    · rw [if_neg hq]; exact hobs

theorem cyttsp_set_sysinfo_mode_sign (env : CyEnv) (st : CySt) :
    (cyttsp_set_sysinfo_mode env st).1 ≤ 0 := by
  by_cases hw : (ttsp_write_block_data env { st with tts_verh := 0, tts_verl := 0 }
      CY_REG_BASE [CY_SYSINFO_MODE]).1 < 0
  · rw [cyttsp_set_sysinfo_mode, if_pos hw]
    omega
  · rw [cyttsp_set_sysinfo_mode, if_neg hw]
    by_cases hq : (cyttsp_sysinfo_poll env (CY_DELAY_MAX + 2) 0
        (ttsp_write_block_data env { st with tts_verh := 0, tts_verl := 0 }
          CY_REG_BASE [CY_SYSINFO_MODE]).2).2.1 ≥ CY_DELAY_MAX
    · rw [if_pos hq]; norm_num [EAGAIN]
    · rw [if_neg hq]
      exact cyttsp_sysinfo_poll_sign env (CY_DELAY_MAX + 2) 0
        (ttsp_write_block_data env { st with tts_verh := 0, tts_verl := 0 }
          CY_REG_BASE [CY_SYSINFO_MODE]).2

theorem cyttsp_bl_app_valid_obs (env : CyEnv) (st : CySt) :
    obsPreserved st (cyttsp_bl_app_valid env st).2 := by
  have hobs := cyttsp_load_bl_regs_obs env st
  by_cases h0 : (cyttsp_load_bl_regs env st).1 < 0
  · rw [cyttsp_bl_app_valid, if_pos h0]
    exact hobs
  · have happ : cyttsp_bl_app_valid env st =
        (if GET_BOOTLOADERMODE (cyttsp_load_bl_regs env st).2.bl_status ≠ 0 then
          if IS_VALID_APP (cyttsp_load_bl_regs env st).2.bl_status ≠ 0 then
            ((0 : Int), (cyttsp_load_bl_regs env st).2)
          else (-ENODEV, (cyttsp_load_bl_regs env st).2)
        else if GET_HSTMODE (cyttsp_load_bl_regs env st).2.bl_file = CY_OPERATE_MODE then
          if IS_OPERATIONAL_ERR (cyttsp_load_bl_regs env st).2.bl_status = 0 then
            ((1 : Int), (cyttsp_load_bl_regs env st).2)
          else (-ENODEV, (cyttsp_load_bl_regs env st).2)
        else (-ENODEV, (cyttsp_load_bl_regs env st).2)) := by
      rw [cyttsp_bl_app_valid, if_neg h0]
    rw [happ]
    split_ifs <;> exact hobs

theorem cyttsp_bl_app_valid_cases (env : CyEnv) (st : CySt) :
    (cyttsp_bl_app_valid env st).1 = 0 ∨ (cyttsp_bl_app_valid env st).1 = 1 ∨
    (cyttsp_bl_app_valid env st).1 = -ENODEV := by
  by_cases h0 : (cyttsp_load_bl_regs env st).1 < 0
  · rw [cyttsp_bl_app_valid, if_pos h0]
    exact Or.inr (Or.inr rfl)
  · have happ : cyttsp_bl_app_valid env st =
        (if GET_BOOTLOADERMODE (cyttsp_load_bl_regs env st).2.bl_status ≠ 0 then
          if IS_VALID_APP (cyttsp_load_bl_regs env st).2.bl_status ≠ 0 then
            ((0 : Int), (cyttsp_load_bl_regs env st).2)
          else (-ENODEV, (cyttsp_load_bl_regs env st).2)
        else if GET_HSTMODE (cyttsp_load_bl_regs env st).2.bl_file = CY_OPERATE_MODE then
          if IS_OPERATIONAL_ERR (cyttsp_load_bl_regs env st).2.bl_status = 0 then
            ((1 : Int), (cyttsp_load_bl_regs env st).2)
          else (-ENODEV, (cyttsp_load_bl_regs env st).2)
        else (-ENODEV, (cyttsp_load_bl_regs env st).2)) := by
      rw [cyttsp_bl_app_valid, if_neg h0]
    rw [happ]
    split_ifs <;> simp

/-- The tail of the attach sequence either fails, leaving power state
and events as it found them, or succeeds with result 0, the power state
set to Active and the events untouched. -/
theorem cyttsp_power_on_sysinfo_spec (env : CyEnv) (st : CySt) :
    ((cyttsp_power_on_sysinfo env st).1 < 0 ∧
      obsPreserved st (cyttsp_power_on_sysinfo env st).2) ∨
    ((cyttsp_power_on_sysinfo env st).1 = 0 ∧
      (cyttsp_power_on_sysinfo env st).2.power_state = .CY_ACTIVE_STATE ∧
      (cyttsp_power_on_sysinfo env st).2.events = st.events) := by
  by_cases ha : (cyttsp_set_sysinfo_mode env st).1 < 0
  · rw [cyttsp_power_on_sysinfo, if_pos ha]
    exact Or.inl ⟨ha, cyttsp_set_sysinfo_mode_obs env st⟩
  · have hA := cyttsp_set_sysinfo_mode_obs env st
    by_cases hb : (cyttsp_set_sysinfo_regs env (cyttsp_set_sysinfo_mode env st).2).1 < 0
    · rw [cyttsp_power_on_sysinfo, if_neg ha, if_pos hb]
      exact Or.inl ⟨hb, obsPreserved_trans hA (cyttsp_set_sysinfo_regs_obs env _)⟩
    · have hB := obsPreserved_trans hA (cyttsp_set_sysinfo_regs_obs env
        (cyttsp_set_sysinfo_mode env st).2)
      by_cases hc : (cyttsp_set_operational_mode env
          (cyttsp_set_sysinfo_regs env (cyttsp_set_sysinfo_mode env st).2).2).1 < 0
      · rw [cyttsp_power_on_sysinfo, if_neg ha, if_neg hb, if_pos hc]
        exact Or.inl ⟨hc, obsPreserved_trans hB (cyttsp_set_operational_mode_obs env _)⟩
      · have hC := obsPreserved_trans hB (cyttsp_set_operational_mode_obs env
          (cyttsp_set_sysinfo_regs env (cyttsp_set_sysinfo_mode env st).2).2)
        by_cases hd : (cyttsp_act_dist_setup env
            (cyttsp_set_operational_mode env
              (cyttsp_set_sysinfo_regs env (cyttsp_set_sysinfo_mode env st).2).2).2).1 < 0
        · rw [cyttsp_power_on_sysinfo, if_neg ha, if_neg hb, if_neg hc, if_pos hd]
          exact Or.inl ⟨hd, obsPreserved_trans hC (cyttsp_act_dist_setup_obs env _)⟩
        · rw [cyttsp_power_on_sysinfo, if_neg ha, if_neg hb, if_neg hc, if_neg hd]
          have hD := obsPreserved_trans hC (cyttsp_act_dist_setup_obs env
            (cyttsp_set_operational_mode env
              (cyttsp_set_sysinfo_regs env (cyttsp_set_sysinfo_mode env st).2).2).2)
          exact Or.inr ⟨rfl, rfl, hD.2⟩

/-- C4 counterexample: with the flow-control handshake configured and
every bus write failing, a successfully read frame whose mode byte has
the bootloader-mode bit set, in an Active session, triggers no
exit-bootloader recovery at all: the interrupt handler leaves the power
state Active and writes no command (the claim instead requires recovery
to run, which on this bus would fail and leave the power state Idle). -/
theorem claim_C4_counterexample :
    env_c4_cex.pd.use_hndshk = true ∧
    (ttsp_read_block_data env_c4_cex cyttsp_stActive CY_REG_BASE 32).1 = 0 ∧
    GET_BOOTLOADERMODE
      (byteAt ((ttsp_read_block_data env_c4_cex cyttsp_stActive CY_REG_BASE 32).2.1.getD []) 1) ≠ 0 ∧
    cyttsp_stActive.power_state = .CY_ACTIVE_STATE ∧
    (cyttsp_irq env_c4_cex cyttsp_stActive).power_state = .CY_ACTIVE_STATE ∧
    (cyttsp_irq env_c4_cex cyttsp_stActive).wlog = [] ∧
    (cyttsp_irq env_c4_cex cyttsp_stActive).events = [] := by
  decide

/-- C4 (amended): when the frame read succeeds with the bootloader-mode
bit set while the session is Active, and the configured handshake write
(if any) succeeds, the handler returns the bootloader re-entry signal
with no input events emitted, and the interrupt handler runs exactly
the exit-bootloader recovery: its success makes the power state Active,
its failure makes it Idle, and no events are emitted either way. -/
theorem claim_C4_bl_reentry_recovery (env : CyEnv) (st : CySt)
    (hA : st.power_state = .CY_ACTIVE_STATE)
    (hr : (ttsp_read_block_data env st CY_REG_BASE 32).1 = 0)
    (hbit : GET_BOOTLOADERMODE
      (byteAt ((ttsp_read_block_data env st CY_REG_BASE 32).2.1.getD []) 1) ≠ 0)
    (hhs : env.pd.use_hndshk = true →
      (cyttsp_hndshk env (ttsp_read_block_data env st CY_REG_BASE 32).2.2
        (byteAt ((ttsp_read_block_data env st CY_REG_BASE 32).2.1.getD []) 0)).1 = 0) :
    (cyttsp_handle_tchdata env st).1 = -1 ∧
    (cyttsp_handle_tchdata env st).2.events = st.events ∧
    ((cyttsp_exit_bl_mode env (cyttsp_handle_tchdata env st).2).1 = 0 →
      cyttsp_irq env st =
        { (cyttsp_exit_bl_mode env (cyttsp_handle_tchdata env st).2).2 with
          power_state := .CY_ACTIVE_STATE }) ∧
    ((cyttsp_exit_bl_mode env (cyttsp_handle_tchdata env st).2).1 ≠ 0 →
      cyttsp_irq env st =
        { (cyttsp_exit_bl_mode env (cyttsp_handle_tchdata env st).2).2 with
          power_state := .CY_IDLE_STATE }) ∧
    (cyttsp_irq env st).events = st.events := by
  have hRobs := ttsp_read_block_data_obs env st CY_REG_BASE 32
  have hhandle : cyttsp_handle_tchdata env st =
      (-1, (if env.pd.use_hndshk then
          cyttsp_hndshk env (ttsp_read_block_data env st CY_REG_BASE 32).2.2
            (byteAt ((ttsp_read_block_data env st CY_REG_BASE 32).2.1.getD []) 0)
        else ((0 : Int), (ttsp_read_block_data env st CY_REG_BASE 32).2.2)).2) := by
    cases hup : env.pd.use_hndshk with
    | false =>
      simp only [cyttsp_handle_tchdata, hup, Bool.false_eq_true, if_false]
      rw [if_neg (not_not_intro hr)]
      rw [if_neg (show ¬((0 : Int) ≠ 0) from not_not_intro rfl)]
      rw [if_neg (show ¬((ttsp_read_block_data env st CY_REG_BASE 32).2.2.power_state =
          .CY_IDLE_STATE) from by rw [hRobs.1, hA]; exact fun hx => nomatch hx)]
      rw [if_pos hbit]
    | true =>
      have hH := hhs hup
      have hHobs := ttsp_write_block_data_obs env
        (ttsp_read_block_data env st CY_REG_BASE 32).2.2 CY_REG_BASE
        [(byteAt ((ttsp_read_block_data env st CY_REG_BASE 32).2.1.getD []) 0 ^^^
          CY_HNDSHK_BIT) % 256]
      simp only [cyttsp_handle_tchdata, hup, if_true]
      rw [if_neg (not_not_intro hr)]
      rw [if_neg (not_not_intro hH)]
      rw [if_neg (show ¬((cyttsp_hndshk env (ttsp_read_block_data env st CY_REG_BASE 32).2.2
          (byteAt ((ttsp_read_block_data env st CY_REG_BASE 32).2.1.getD []) 0)).2.power_state =
          .CY_IDLE_STATE) from by
        show ¬((ttsp_write_block_data env (ttsp_read_block_data env st CY_REG_BASE 32).2.2
          CY_REG_BASE
          [(byteAt ((ttsp_read_block_data env st CY_REG_BASE 32).2.1.getD []) 0 ^^^
            CY_HNDSHK_BIT) % 256]).2.power_state = .CY_IDLE_STATE)
        rw [hHobs.1, hRobs.1, hA]
        exact fun hx => nomatch hx)]
      rw [if_pos hbit]
  have hevents : (cyttsp_handle_tchdata env st).2.events = st.events := by
    rw [hhandle]
    cases hup : env.pd.use_hndshk with
    | false =>
      rw [if_neg (show ¬(false = true) from fun hx => nomatch hx)]
      exact hRobs.2
    | true =>
      rw [if_pos (show true = true from rfl)]
      have hHobs := ttsp_write_block_data_obs env
        (ttsp_read_block_data env st CY_REG_BASE 32).2.2 CY_REG_BASE
        [(byteAt ((ttsp_read_block_data env st CY_REG_BASE 32).2.1.getD []) 0 ^^^
          CY_HNDSHK_BIT) % 256]
      exact (obsPreserved_trans hRobs hHobs).2
  have hcond : (cyttsp_handle_tchdata env st).1 < 0 := by
    rw [hhandle]
    norm_num
  have hblst : ¬(st.power_state = .CY_BL_STATE) := by
    rw [hA]
    exact fun hx => nomatch hx
  have hirq : cyttsp_irq env st =
      (if (cyttsp_exit_bl_mode env (cyttsp_handle_tchdata env st).2).1 ≠ 0 then
        { (cyttsp_exit_bl_mode env (cyttsp_handle_tchdata env st).2).2 with
          power_state := .CY_IDLE_STATE }
      else
        { (cyttsp_exit_bl_mode env (cyttsp_handle_tchdata env st).2).2 with
          power_state := .CY_ACTIVE_STATE }) := by
    rw [cyttsp_irq, if_neg hblst]
    show (if (cyttsp_handle_tchdata env st).1 < 0 then
        (if (cyttsp_exit_bl_mode env (cyttsp_handle_tchdata env st).2).1 ≠ 0 then
          { (cyttsp_exit_bl_mode env (cyttsp_handle_tchdata env st).2).2 with
            power_state := .CY_IDLE_STATE }
        else
          { (cyttsp_exit_bl_mode env (cyttsp_handle_tchdata env st).2).2 with
            power_state := .CY_ACTIVE_STATE })
      else (cyttsp_handle_tchdata env st).2) = _
    rw [if_pos hcond]
  have hexev := (cyttsp_exit_bl_mode_obs env (cyttsp_handle_tchdata env st).2).2
  refine ⟨by rw [hhandle], hevents, ?_, ?_, ?_⟩
  · intro hq0
    rw [hirq, if_neg (not_not_intro hq0)]
  · intro hqn
    rw [hirq, if_pos hqn]
  · rw [hirq]
    split_ifs <;> exact hexev.trans hevents

/-- Witness for C4 (amended): a frame with the bootloader bit, Active
session, handshake off, healthy bus delivering a cleared status block
on the recovery polls: the handler signals re-entry and the interrupt
handler restores the Active state. -/
theorem claim_C4_bl_reentry_recovery_witness :
    cyttsp_stActive.power_state = .CY_ACTIVE_STATE ∧
    (ttsp_read_block_data env_c4_wit cyttsp_stActive CY_REG_BASE 32).1 = 0 ∧
    (cyttsp_handle_tchdata env_c4_wit cyttsp_stActive).1 = -1 ∧
    (cyttsp_irq env_c4_wit cyttsp_stActive).power_state = .CY_ACTIVE_STATE ∧
    (cyttsp_irq env_c4_wit cyttsp_stActive).events = [] := by
  have hmain := claim_C4_bl_reentry_recovery env_c4_wit cyttsp_stActive
    (by decide) (by decide) (by decide) (by decide)
  have hq0 : (cyttsp_exit_bl_mode env_c4_wit
      (cyttsp_handle_tchdata env_c4_wit cyttsp_stActive).2).1 = 0 := by decide
  refine ⟨by decide, by decide, hmain.1, ?_, ?_⟩
  · rw [hmain.2.2.1 hq0]
  · rw [hmain.2.2.2.2]
    rfl

/-- C1 counterexample: irq registration and soft reset succeed, then
every bus read fails, so the bootloader validity step fails; attach
surfaces its error -ENODEV but returns with PowerState Bootloader, not
Idle as the claim requires. -/
theorem claim_C1_counterexample :
    (cyttsp_power_on env_reads_fail cyttsp_st0).1 = -ENODEV ∧
    (cyttsp_power_on env_reads_fail cyttsp_st0).2.power_state = .CY_BL_STATE ∧
    (cyttsp_power_on env_reads_fail cyttsp_st0).2.power_state ≠ .CY_IDLE_STATE := by
  decide

/-- C1 (amended): attach never returns a positive value; PowerState is
Active on return only when attach returns 0 through the fully
successful sequence; on any error return PowerState is Bootloader or
Idle (not necessarily Idle); a soft-reset timeout is not surfaced -
attach returns 0 with PowerState still Bootloader - and a soft-reset
write failure is not fatal either: the sequence continues with the
bootloader validity check, whose failure is returned as is. -/
theorem claim_C1_power_on_amended (env : CyEnv) (st : CySt) :
    ((cyttsp_power_on env st).1 ≤ 0) ∧
    ((cyttsp_power_on env st).2.power_state = .CY_ACTIVE_STATE →
      (cyttsp_power_on env st).1 = 0) ∧
    ((cyttsp_power_on env st).1 ≠ 0 →
      (cyttsp_power_on env st).2.power_state = .CY_BL_STATE ∨
      (cyttsp_power_on env st).2.power_state = .CY_IDLE_STATE) ∧
    (0 ≤ env.irqRetval →
      (cyttsp_soft_reset env { st with power_state := .CY_BL_STATE }).1 = 0 →
      cyttsp_power_on env st =
        (0, (cyttsp_soft_reset env { st with power_state := .CY_BL_STATE }).2) ∧
      (cyttsp_soft_reset env { st with power_state := .CY_BL_STATE }).2.power_state =
        .CY_BL_STATE) ∧
    (0 ≤ env.irqRetval →
      (cyttsp_soft_reset env { st with power_state := .CY_BL_STATE }).1 ≠ 0 →
      (cyttsp_bl_app_valid env
        (cyttsp_soft_reset env { st with power_state := .CY_BL_STATE }).2).1 < 0 →
      cyttsp_power_on env st =
        ((cyttsp_bl_app_valid env
            (cyttsp_soft_reset env { st with power_state := .CY_BL_STATE }).2).1,
          (cyttsp_bl_app_valid env
            (cyttsp_soft_reset env { st with power_state := .CY_BL_STATE }).2).2)) := by
  by_cases hirq : env.irqRetval < 0
  · have heq : cyttsp_power_on env st =
        (env.irqRetval, { st with power_state := .CY_BL_STATE }) := by
      rw [cyttsp_power_on, if_pos hirq]
    refine ⟨by rw [heq]; omega, ?_, ?_, ?_, ?_⟩
    · rw [heq]
      intro hact
      exact absurd hact (by exact fun hx => nomatch hx)
    · rw [heq]
      intro _
      exact Or.inl rfl
    · intro h0
      omega
    · intro h0
      omega
  · have hSRp : (cyttsp_soft_reset env { st with power_state := .CY_BL_STATE }).2.power_state =
        cyttsp_powerstate.CY_BL_STATE :=
      (cyttsp_soft_reset_obs env { st with power_state := .CY_BL_STATE }).1
    have heq0 : cyttsp_power_on env st =
        (if (cyttsp_soft_reset env { st with power_state := .CY_BL_STATE }).1 = 0 then
          ((0 : Int), (cyttsp_soft_reset env { st with power_state := .CY_BL_STATE }).2)
        else
          (if (cyttsp_bl_app_valid env
              (cyttsp_soft_reset env { st with power_state := .CY_BL_STATE }).2).1 < 0 then
            ((cyttsp_bl_app_valid env
                (cyttsp_soft_reset env { st with power_state := .CY_BL_STATE }).2).1,
              (cyttsp_bl_app_valid env
                (cyttsp_soft_reset env { st with power_state := .CY_BL_STATE }).2).2)
          else if (cyttsp_bl_app_valid env
              (cyttsp_soft_reset env { st with power_state := .CY_BL_STATE }).2).1 > 0 then
            cyttsp_power_on_sysinfo env
              (cyttsp_bl_app_valid env
                (cyttsp_soft_reset env { st with power_state := .CY_BL_STATE }).2).2
          else
            (if (cyttsp_exit_bl_mode env
                (cyttsp_bl_app_valid env
                  (cyttsp_soft_reset env { st with power_state := .CY_BL_STATE }).2).2).1 < 0 then
              ((cyttsp_exit_bl_mode env
                  (cyttsp_bl_app_valid env
                    (cyttsp_soft_reset env
                      { st with power_state := .CY_BL_STATE }).2).2).1,
                (cyttsp_exit_bl_mode env
                  (cyttsp_bl_app_valid env
                    (cyttsp_soft_reset env
                      { st with power_state := .CY_BL_STATE }).2).2).2)
            else
              cyttsp_power_on_sysinfo env
                { (cyttsp_exit_bl_mode env
                    (cyttsp_bl_app_valid env
                      (cyttsp_soft_reset env
                        { st with power_state := .CY_BL_STATE }).2).2).2 with
                  power_state := .CY_IDLE_STATE }))) := by
      rw [cyttsp_power_on, if_neg hirq]
    by_cases hsr : (cyttsp_soft_reset env { st with power_state := .CY_BL_STATE }).1 = 0
    · have heq : cyttsp_power_on env st =
          ((0 : Int), (cyttsp_soft_reset env { st with power_state := .CY_BL_STATE }).2) := by
        rw [heq0, if_pos hsr]
      refine ⟨by rw [heq], fun _ => by rw [heq], ?_, ?_, ?_⟩
      · intro hne
        rw [heq] at hne
        exact absurd rfl hne
      · intro _ _
        exact ⟨heq, hSRp⟩
      · intro _ hne _
        exact absurd hsr hne
    · have hVp : (cyttsp_bl_app_valid env
          (cyttsp_soft_reset env { st with power_state := .CY_BL_STATE }).2).2.power_state =
          cyttsp_powerstate.CY_BL_STATE :=
        ((cyttsp_bl_app_valid_obs env
          (cyttsp_soft_reset env { st with power_state := .CY_BL_STATE }).2).1).trans hSRp
      by_cases hvneg : (cyttsp_bl_app_valid env
          (cyttsp_soft_reset env { st with power_state := .CY_BL_STATE }).2).1 < 0
      · have heq : cyttsp_power_on env st =
            ((cyttsp_bl_app_valid env
                (cyttsp_soft_reset env { st with power_state := .CY_BL_STATE }).2).1,
              (cyttsp_bl_app_valid env
                (cyttsp_soft_reset env { st with power_state := .CY_BL_STATE }).2).2) := by
          rw [heq0, if_neg hsr, if_pos hvneg]
        refine ⟨by rw [heq]; omega, ?_, ?_, ?_, ?_⟩
        · rw [heq]
          intro hact
          rw [hVp] at hact
          exact absurd hact (fun hx => nomatch hx)
        · intro _
          rw [heq]
          exact Or.inl hVp
        · intro _ hs0
          exact absurd hs0 hsr
        · intro _ _ _
          exact heq
      · by_cases hvpos : (cyttsp_bl_app_valid env
            (cyttsp_soft_reset env { st with power_state := .CY_BL_STATE }).2).1 > 0
        · have heq : cyttsp_power_on env st =
              cyttsp_power_on_sysinfo env
                (cyttsp_bl_app_valid env
                  (cyttsp_soft_reset env { st with power_state := .CY_BL_STATE }).2).2 := by
            rw [heq0, if_neg hsr, if_neg hvneg, if_pos hvpos]
          rcases cyttsp_power_on_sysinfo_spec env
              (cyttsp_bl_app_valid env
                (cyttsp_soft_reset env { st with power_state := .CY_BL_STATE }).2).2 with
            ⟨hlt, hobs⟩ | ⟨h0, hact, _⟩
          · refine ⟨by rw [heq]; omega, ?_, ?_, ?_, ?_⟩
            · rw [heq]
              intro hact
              rw [hobs.1, hVp] at hact
              exact absurd hact (fun hx => nomatch hx)
            · intro _
              rw [heq]
              exact Or.inl (hobs.1.trans hVp)
            · intro _ hs0
              exact absurd hs0 hsr
            · intro _ _ hvn
              exact absurd hvn hvneg
          · refine ⟨by rw [heq]; omega, fun _ => by rw [heq]; exact h0, ?_, ?_, ?_⟩
            · intro hne
              rw [heq] at hne
              exact absurd h0 hne
            · intro _ hs0
              exact absurd hs0 hsr
            · intro _ _ hvn
              exact absurd hvn hvneg
        · have hv0 : (cyttsp_bl_app_valid env
              (cyttsp_soft_reset env { st with power_state := .CY_BL_STATE }).2).1 = 0 := by
            omega
          have hEp : (cyttsp_exit_bl_mode env
              (cyttsp_bl_app_valid env
                (cyttsp_soft_reset env
                  { st with power_state := .CY_BL_STATE }).2).2).2.power_state =
              cyttsp_powerstate.CY_BL_STATE :=
            ((cyttsp_exit_bl_mode_obs env
              (cyttsp_bl_app_valid env
                (cyttsp_soft_reset env
                  { st with power_state := .CY_BL_STATE }).2).2).1).trans hVp
          by_cases hE : (cyttsp_exit_bl_mode env
              (cyttsp_bl_app_valid env
                (cyttsp_soft_reset env
                  { st with power_state := .CY_BL_STATE }).2).2).1 < 0
          · have heq : cyttsp_power_on env st =
                ((cyttsp_exit_bl_mode env
                    (cyttsp_bl_app_valid env
                      (cyttsp_soft_reset env
                        { st with power_state := .CY_BL_STATE }).2).2).1,
                  (cyttsp_exit_bl_mode env
                    (cyttsp_bl_app_valid env
                      (cyttsp_soft_reset env
                        { st with power_state := .CY_BL_STATE }).2).2).2) := by
              rw [heq0, if_neg hsr, if_neg hvneg, if_neg hvpos, if_pos hE]
            refine ⟨by rw [heq]; omega, ?_, ?_, ?_, ?_⟩
            · rw [heq]
              intro hact
              rw [hEp] at hact
              exact absurd hact (fun hx => nomatch hx)
            · intro _
              rw [heq]
              exact Or.inl hEp
            · intro _ hs0
              exact absurd hs0 hsr
            · intro _ _ hvn
              exact absurd hvn hvneg
          · have heq : cyttsp_power_on env st =
                cyttsp_power_on_sysinfo env
                  { (cyttsp_exit_bl_mode env
                      (cyttsp_bl_app_valid env
                        (cyttsp_soft_reset env
                          { st with power_state := .CY_BL_STATE }).2).2).2 with
                    power_state := .CY_IDLE_STATE } := by
              rw [heq0, if_neg hsr, if_neg hvneg, if_neg hvpos, if_neg hE]
            rcases cyttsp_power_on_sysinfo_spec env
                { (cyttsp_exit_bl_mode env
                    (cyttsp_bl_app_valid env
                      (cyttsp_soft_reset env
                        { st with power_state := .CY_BL_STATE }).2).2).2 with
                  power_state := .CY_IDLE_STATE } with
              ⟨hlt, hobs⟩ | ⟨h0, hact, _⟩
            · refine ⟨by rw [heq]; omega, ?_, ?_, ?_, ?_⟩
              · rw [heq]
                intro hact
                rw [hobs.1] at hact
                exact absurd hact (fun hx => nomatch hx)
              · intro _
                rw [heq]
                exact Or.inr hobs.1
              · intro _ hs0
                exact absurd hs0 hsr
              · intro _ _ hvn
                exact absurd hvn hvneg
            · refine ⟨by rw [heq]; omega, fun _ => by rw [heq]; exact h0, ?_, ?_, ?_⟩
              · intro hne
                rw [heq] at hne
                exact absurd h0 hne
              · intro _ hs0
                exact absurd hs0 hsr
              · intro _ _ hvn
                exact absurd hvn hvneg

/-- Witness for C1 (amended): on a bus whose soft reset succeeds but
whose reads all fail, the bootloader check fails with -ENODEV, attach
returns that error and the power state on return is Bootloader;
separately, a pure soft-reset timeout makes attach return 0 with the
power state still Bootloader. -/
theorem claim_C1_power_on_amended_witness :
    (cyttsp_power_on env_reads_fail cyttsp_st0).1 ≤ 0 ∧
    cyttsp_power_on env_reads_fail cyttsp_st0 =
      ((cyttsp_bl_app_valid env_reads_fail
          (cyttsp_soft_reset env_reads_fail
            { cyttsp_st0 with power_state := .CY_BL_STATE }).2).1,
        (cyttsp_bl_app_valid env_reads_fail
          (cyttsp_soft_reset env_reads_fail
            { cyttsp_st0 with power_state := .CY_BL_STATE }).2).2) ∧
    cyttsp_power_on env_timeout cyttsp_st0 =
      (0, (cyttsp_soft_reset env_timeout
        { cyttsp_st0 with power_state := .CY_BL_STATE }).2) ∧
    (cyttsp_soft_reset env_timeout
      { cyttsp_st0 with power_state := .CY_BL_STATE }).2.power_state = .CY_BL_STATE := by
  have h1 := (claim_C1_power_on_amended env_reads_fail cyttsp_st0).1
  have h5 := (claim_C1_power_on_amended env_reads_fail cyttsp_st0).2.2.2.2
    (by decide) (by decide) (by decide)
  have h4 := (claim_C1_power_on_amended env_timeout cyttsp_st0).2.2.2.1
    (by decide) (by decide)
  exact ⟨h1, h5, h4.1, h4.2⟩

end Cyttsp
